import Mathlib

/-!
# Attribute initializer: recovery decision protocol

A shallow embedding of `proton::AttributeInitializer`
(`searchcore/proton/attribute/attribute_initializer.cpp`).

The initializer talks to three collaborators (attribute directory, attribute
factory, attribute vector) and to the file system.  The answers of the
collaborators are inputs of the model; every call that changes a collaborator
or leaves the process (factory calls, header decode, log lines, events,
`load`, `commit`) is recorded, in program order, in a list of `Event`s.
A run ends in one of three ways: it returns a (possibly null) shared pointer,
it stops at a failed `assert`, or an exception leaves `init`.

Serial numbers are `uint64_t` in the source.  They are only compared and
passed on, never used in arithmetic, so they are embedded as `Nat`.

The file also embeds the comparison operators of
`document::StructuredFieldValue::Iterator`
(`document/fieldvalue/structuredfieldvalue.h`).
-/

namespace document

/-- `StructuredFieldValue::Iterator` as its comparison operators read it: the
member `_field`, a pointer to the current `Field`, null (`none`) at the end.
The members `_owner` and `_iterator` take no part in a comparison.  The class
`Field` and its `operator==` are declared in `document/base/field.h`; they are
parameters here. -/
structure Iterator (Field : Type) where
  _field : Option Field

namespace Iterator

/-- `Iterator::operator==(other)`; `fieldEq` is `Field::operator==`.  The last
arm of the `match` is not reached: both pointers are non-null there. -/
def operator_eq {Field : Type} (fieldEq : Field → Field → Bool)
    (self other : Iterator Field) : Bool :=
  if self._field.isNone ∧ other._field.isNone then
    true
  else if self._field.isNone ∨ other._field.isNone then
    false
  else
    match self._field, other._field with
    | some field, some otherField => fieldEq field otherField
    | _, _ => false

/-- `Iterator::operator!=(other)`. -/
def operator_ne {Field : Type} (fieldEq : Field → Field → Bool)
    (self other : Iterator Field) : Bool :=
  !(operator_eq fieldEq self other)

end Iterator

end document

namespace proton

/-- Modelled from the spec: the basic kind of a type descriptor
(`search::attribute::BasicType::Type`, declared in `basictype.h`, which
`attribute_initializer.cpp` only uses).
The source names the two payload-bearing kinds `TENSOR` and `PREDICATE`; the
scenarios of the spec name string and int32; every further kind is `OTHER n`. -/
inductive BasicType where
  | STRING
  | INT32
  | PREDICATE
  | TENSOR
  | OTHER (code : Nat)
  deriving DecidableEq, Repr

/-- Modelled from the spec: the collection kind of a type descriptor
(`search::attribute::CollectionType::Type`, which `attribute_initializer.cpp`
only compares): "single value / array / set / map". -/
inductive CollectionType where
  | SINGLE
  | ARRAY
  | SET
  | MAP
  deriving DecidableEq, Repr

/-- Modelled from the spec: the tensor-shape specification of a type
descriptor (`vespalib::eval::ValueType`, whose declaration
`attribute_initializer.cpp` only uses).  The source compares two of them with
`!=` and prints them with `to_spec()`, so a tensor type is represented by its
specification text. -/
structure ValueType where
  to_spec : String
  deriving DecidableEq, Repr

/-- Modelled from the spec: predicate-index parameters, "arity and bound pair"
(`search::attribute::PersistentPredicateParams`, whose declaration
`attribute_initializer.cpp` only uses).  `operator==` is equality of the three
numbers. -/
structure PersistentPredicateParams where
  arity : Nat
  lower_bound : Int
  upper_bound : Int
  deriving DecidableEq, Repr

/-- The part of `search::attribute::Config` that the initializer reads: the
target type descriptor. -/
structure Config where
  basicType : BasicType
  collectionType : CollectionType
  tensorType : ValueType
  predicateParams : PersistentPredicateParams
  deriving DecidableEq, Repr

/-- The on-disk header record (`search::attribute::AttributeHeader`), as read
through its getters. -/
structure AttributeHeader where
  getBasicType : BasicType
  getCollectionType : CollectionType
  getTensorType : ValueType
  getPredicateParams : PersistentPredicateParams
  getPredicateParamsSet : Bool
  getCreateSerialNum : Nat
  deriving DecidableEq, Repr

/-- An attribute instance (`search::AttributeVector`) as the initializer sees
it: the answers of its `const` getters, of `hasLoadData()` and of `load()`.
The calls that change the instance (`load`, `commit`, the factory's
`setupEmpty`) are recorded as events naming the instance. -/
structure AttributeVector where
  getName : String
  getBaseFileName : String
  getConfig : Config
  hasLoadData : Bool
  load : Bool
  deriving DecidableEq, Repr

/-- The attribute directory (`proton::AttributeDirectory`), as read through
`empty()`, `getFlushedSerialNum()` and `getAttributeFileName(serialNum)`. -/
structure AttributeDirectory where
  empty : Bool
  getFlushedSerialNum : Nat
  getAttributeFileName : Nat → String

/-- Modelled from the spec: the attribute factory (`proton::IAttributeFactory`,
an interface that `attribute_initializer.cpp` only calls).  The factory "constructs
an attribute instance bound to a type configuration and a file path":
`create` answers with an instance whose configuration is the one it was given.
Its second operation, `setupEmpty(instance, serial)`, returns nothing; the
initializer's calls of it are recorded as events. -/
structure IAttributeFactory where
  create : String → Config → AttributeVector
  create_getConfig : ∀ (attrFileName : String) (cfg : Config),
    (create attrFileName cfg).getConfig = cfg

/-- The file system as `extractHeader` sees it: for the name of a data file,
the header record decoded from it, or `none` when opening or decoding it
throws. -/
abbrev Disk := String → Option AttributeHeader

/-- The calls of a run that reach a collaborator, the log or the event logger,
in program order.  Elapsed times of the load-complete event are wall-clock
measurements and are left out. -/
inductive Event where
  | create (attrFileName : String) (cfg : Config)
  | extractHeader (attrFileName : String)
  | logAttributeTooNew (attr : AttributeVector) (header : AttributeHeader) (serialNum : Nat)
  | logAttributeWrongType (attr : AttributeVector) (header : AttributeHeader)
  | logReturningEmpty (attr : AttributeVector)
  | setupEmpty (attr : AttributeVector) (serialNum : Nat)
  | loadAttributeStart (documentSubDbName : String) (name : String)
  | load (attr : AttributeVector)
  | logCouldNotLoad (attr : AttributeVector)
  | commit (attr : AttributeVector) (firstSerial : Nat) (lastSerial : Nat)
  | loadAttributeComplete (documentSubDbName : String) (name : String)
  deriving DecidableEq, Repr

/-- How a call ends: it returns a value, it stops the process at a failed
`assert`, or an exception propagates out of it. -/
inductive Completion (α : Type) where
  | returned (value : α)
  | assertFailed
  | thrown
  deriving DecidableEq, Repr

/-- A finished call: the events it emitted and how it ended. -/
structure Run (α : Type) where
  events : List Event
  completion : Completion α
  deriving DecidableEq, Repr

/-- The initializer's members, fixed at construction. -/
structure AttributeInitializer where
  _attrDir : AttributeDirectory
  _documentSubDbName : String
  _cfg : Config
  _currentSerialNum : Nat
  _factory : IAttributeFactory

/-- `headerTypeOK(header, cfg)`: the type descriptor of the header is
compatible with the configuration.  The three `if` statements of the source
run in order and each can only leave with `false`; a nested `if` is written as
a conjunction of its conditions. -/
def headerTypeOK (header : AttributeHeader) (cfg : Config) : Bool :=
  if header.getBasicType ≠ cfg.basicType ∨
      header.getCollectionType ≠ cfg.collectionType then
    false
  else if cfg.basicType = BasicType.TENSOR ∧ header.getTensorType ≠ cfg.tensorType then
    false
  else if cfg.basicType = BasicType.PREDICATE ∧ header.getPredicateParamsSet = true ∧
      ¬ (header.getPredicateParams = cfg.predicateParams) then
    false
  else
    true

/-- `extractHeader(attrFileName)`: open `attrFileName + ".dat"`, read its file
header and extract the attribute tags; `none` when that throws. -/
def extractHeader (disk : Disk) (attrFileName : String) : Option AttributeHeader :=
  disk (attrFileName ++ ".dat")

namespace AttributeInitializer

/-- `AttributeInitializer::loadAttribute(attr, serialNum)`. -/
def loadAttribute (self : AttributeInitializer) (attr : AttributeVector)
    (serialNum : Nat) : Run Bool :=
  if attr.hasLoadData = false then
    { events := [], completion := Completion.assertFailed }
  else if attr.load = false then
    { events := [Event.loadAttributeStart self._documentSubDbName attr.getName,
                 Event.load attr,
                 Event.logCouldNotLoad attr],
      completion := Completion.returned false }
  else
    { events := [Event.loadAttributeStart self._documentSubDbName attr.getName,
                 Event.load attr,
                 Event.commit attr serialNum serialNum,
                 Event.loadAttributeComplete self._documentSubDbName attr.getName],
      completion := Completion.returned true }

/-- `AttributeInitializer::setupEmptyAttribute(attr, serialNum, header)`:
the events it emits (it returns nothing and has no failing exit). -/
def setupEmptyAttribute (self : AttributeInitializer) (attr : AttributeVector)
    (serialNum : Nat) (header : AttributeHeader) : List Event :=
  (if header.getCreateSerialNum > self._currentSerialNum then
      [Event.logAttributeTooNew attr header self._currentSerialNum]
    else []) ++
  (if headerTypeOK header attr.getConfig = false then
      [Event.logAttributeWrongType attr header]
    else []) ++
  [Event.logReturningEmpty attr,
   Event.setupEmpty attr self._currentSerialNum,
   Event.commit attr serialNum serialNum]

/-- `AttributeInitializer::tryLoadAttribute()`.  The returned value is the
shared pointer: `some attr`, or `none` for the null pointer. -/
def tryLoadAttribute (self : AttributeInitializer) (disk : Disk) :
    Run (Option AttributeVector) :=
  let serialNum := self._attrDir.getFlushedSerialNum
  let attrFileName := self._attrDir.getAttributeFileName serialNum
  let attr := self._factory.create attrFileName self._cfg
  if serialNum ≠ 0 then
    match extractHeader disk attrFileName with
    | none =>
      { events := [Event.create attrFileName self._cfg, Event.extractHeader attrFileName],
        completion := Completion.thrown }
    | some header =>
      if header.getCreateSerialNum > self._currentSerialNum ∨
          headerTypeOK header attr.getConfig = false then
        { events := [Event.create attrFileName self._cfg, Event.extractHeader attrFileName]
            ++ self.setupEmptyAttribute attr serialNum header,
          completion := Completion.returned (some attr) }
      else
        let loaded := self.loadAttribute attr serialNum
        { events := [Event.create attrFileName self._cfg, Event.extractHeader attrFileName]
            ++ loaded.events,
          completion :=
            match loaded.completion with
            | Completion.returned true => Completion.returned (some attr)
            | Completion.returned false => Completion.returned none
            | Completion.assertFailed => Completion.assertFailed
            | Completion.thrown => Completion.thrown }
  else
    { events := [Event.create attrFileName self._cfg,
                 Event.setupEmpty attr self._currentSerialNum],
      completion := Completion.returned (some attr) }

/-- `AttributeInitializer::createAndSetupEmptyAttribute()`. -/
def createAndSetupEmptyAttribute (self : AttributeInitializer) :
    Run (Option AttributeVector) :=
  let attrFileName := self._attrDir.getAttributeFileName 0
  let attr := self._factory.create attrFileName self._cfg
  { events := [Event.create attrFileName self._cfg,
               Event.setupEmpty attr self._currentSerialNum],
    completion := Completion.returned (some attr) }

/-- `AttributeInitializer::init()`. -/
def init (self : AttributeInitializer) (disk : Disk) : Run (Option AttributeVector) :=
  if self._attrDir.empty = false then
    self.tryLoadAttribute disk
  else
    self.createAndSetupEmptyAttribute

end AttributeInitializer

/-! ## Reading a trace -/

/-- The `commit(firstSerial, lastSerial)` calls of a trace, in order, each
with the instance it was issued on. -/
def commits : List Event → List (AttributeVector × Nat × Nat)
  | [] => []
  | Event.commit attr firstSerial lastSerial :: rest =>
    (attr, firstSerial, lastSerial) :: commits rest
  | _ :: rest => commits rest

/-- The instances `load()` was invoked on, in order. -/
def loads : List Event → List AttributeVector
  | [] => []
  | Event.load attr :: rest => attr :: loads rest
  | _ :: rest => loads rest

/-- The `factory.setupEmpty(instance, serial)` calls of a trace, in order. -/
def setupEmpties : List Event → List (AttributeVector × Nat)
  | [] => []
  | Event.setupEmpty attr serialNum :: rest => (attr, serialNum) :: setupEmpties rest
  | _ :: rest => setupEmpties rest

/-- The `factory.create(fileName, cfg)` calls of a trace, in order. -/
def creates : List Event → List (String × Config)
  | [] => []
  | Event.create attrFileName cfg :: rest => (attrFileName, cfg) :: creates rest
  | _ :: rest => creates rest

/-- The file names whose header a trace decoded (`extractHeader`), in order. -/
def headerDecodes : List Event → List String
  | [] => []
  | Event.extractHeader attrFileName :: rest => attrFileName :: headerDecodes rest
  | _ :: rest => headerDecodes rest

/-- The "too new" diagnostics of a trace, in order. -/
def tooNewLogs : List Event → List (AttributeVector × AttributeHeader × Nat)
  | [] => []
  | Event.logAttributeTooNew attr header serialNum :: rest =>
    (attr, header, serialNum) :: tooNewLogs rest
  | _ :: rest => tooNewLogs rest

/-- The "wrong type" diagnostics of a trace, in order. -/
def wrongTypeLogs : List Event → List (AttributeVector × AttributeHeader)
  | [] => []
  | Event.logAttributeWrongType attr header :: rest => (attr, header) :: wrongTypeLogs rest
  | _ :: rest => wrongTypeLogs rest

/-- A call that acts on the instance, with its serial-number arguments and
without the instance. -/
inductive Action where
  | setupEmpty (serialNum : Nat)
  | load
  | commit (firstSerial : Nat) (lastSerial : Nat)
  deriving DecidableEq, Repr

/-- The sequence of `setupEmpty` / `load` / `commit` calls of a trace. -/
def actions : List Event → List Action
  | [] => []
  | Event.setupEmpty _ serialNum :: rest => Action.setupEmpty serialNum :: actions rest
  | Event.load _ :: rest => Action.load :: actions rest
  | Event.commit _ firstSerial lastSerial :: rest =>
    Action.commit firstSerial lastSerial :: actions rest
  | _ :: rest => actions rest

/-- What the caller learns of the returned instance's type: how the run ended
and, when an instance was returned, its configuration. -/
def handedConfig : Completion (Option AttributeVector) → Completion (Option Config)
  | Completion.returned (some attr) => Completion.returned (some attr.getConfig)
  | Completion.returned none => Completion.returned none
  | Completion.assertFailed => Completion.assertFailed
  | Completion.thrown => Completion.thrown

/-- The file name `tryLoadAttribute` asks the directory for: the file of the
flushed generation. -/
def AttributeInitializer.flushedFileName (self : AttributeInitializer) : String :=
  self._attrDir.getAttributeFileName self._attrDir.getFlushedSerialNum

/-- The instance `tryLoadAttribute` obtains from the factory. -/
def AttributeInitializer.flushedAttr (self : AttributeInitializer) : AttributeVector :=
  self._factory.create self.flushedFileName self._cfg

/-- The instance `createAndSetupEmptyAttribute` obtains from the factory: the
one for the file of generation 0. -/
def AttributeInitializer.emptyAttr (self : AttributeInitializer) : AttributeVector :=
  self._factory.create (self._attrDir.getAttributeFileName 0) self._cfg

/-! ## Concrete inputs -/

/-- A scalar int32 configuration. -/
def int32Config : Config :=
  { basicType := BasicType.INT32, collectionType := CollectionType.SINGLE,
    tensorType := { to_spec := "" },
    predicateParams := { arity := 0, lower_bound := 0, upper_bound := 0 } }

/-- A header of the given basic kind (single value) created at `createSerialNum`. -/
def headerOf (basicType : BasicType) (createSerialNum : Nat) : AttributeHeader :=
  { getBasicType := basicType, getCollectionType := CollectionType.SINGLE,
    getTensorType := { to_spec := "" },
    getPredicateParams := { arity := 0, lower_bound := 0, upper_bound := 0 },
    getPredicateParamsSet := false,
    getCreateSerialNum := createSerialNum }

/-- A directory with the given `empty()` answer and flushed serial number; the
file of generation 0 is "a/0", the file of every other generation "a/n". -/
def directoryOf (isEmpty : Bool) (flushedSerialNum : Nat) : AttributeDirectory :=
  { empty := isEmpty, getFlushedSerialNum := flushedSerialNum,
    getAttributeFileName := fun serialNum => if serialNum = 0 then "a/0" else "a/n" }

/-- A factory whose instances answer `hasLoadData()` and `load()` as given. -/
def factoryOf (hasLoadData : Bool) (load : Bool) : IAttributeFactory :=
  { create := fun attrFileName cfg =>
      { getName := "a", getBaseFileName := attrFileName, getConfig := cfg,
        hasLoadData := hasLoadData, load := load },
    create_getConfig := fun _ _ => rfl }

/-- A disk on which every data file decodes to the given header. -/
def diskOf (header : AttributeHeader) : Disk := fun _ => some header

/-- A disk on which no data file can be decoded. -/
def brokenDisk : Disk := fun _ => none

/-- An initializer for the int32 configuration at current serial number
`currentSerialNum`. -/
def initializerOf (dir : AttributeDirectory) (currentSerialNum : Nat)
    (factory : IAttributeFactory) : AttributeInitializer :=
  { _attrDir := dir, _documentSubDbName := "ready", _cfg := int32Config,
    _currentSerialNum := currentSerialNum, _factory := factory }

/-- Scenario B with an instance that reports it cannot load although its
`load()` would succeed: flushed serial 50, current serial 100. -/
def cannotLoadInitializer : AttributeInitializer :=
  initializerOf (directoryOf false 50) 100 (factoryOf false true)

/-- Scenario E with an instance that reports it cannot load: flushed serial 50,
current serial 100, `load()` would fail. -/
def cannotLoadFailingInitializer : AttributeInitializer :=
  initializerOf (directoryOf false 50) 100 (factoryOf false false)

/-- An artifact flushed at serial 200, after the current serial 100. -/
def flushedLaterInitializer : AttributeInitializer :=
  initializerOf (directoryOf false 200) 100 (factoryOf true true)

/-- Scenario B: flushed serial 50, current serial 100, a loadable instance. -/
def loadingInitializer : AttributeInitializer :=
  initializerOf (directoryOf false 50) 100 (factoryOf true true)

/-- Scenario E: flushed serial 50, current serial 100, an instance whose
`load()` fails. -/
def failingInitializer : AttributeInitializer :=
  initializerOf (directoryOf false 50) 100 (factoryOf true false)

/-- Scenario B in another sub-database, with other file names and another
attribute name: flushed serial 50, current serial 100, a loadable instance. -/
def renamedLoadingInitializer : AttributeInitializer :=
  { _attrDir := { empty := false, getFlushedSerialNum := 50,
                  getAttributeFileName := fun _ => "b" },
    _documentSubDbName := "notready",
    _cfg := int32Config,
    _currentSerialNum := 100,
    _factory :=
      { create := fun attrFileName cfg =>
          { getName := "b", getBaseFileName := attrFileName, getConfig := cfg,
            hasLoadData := true, load := true },
        create_getConfig := fun _ _ => rfl } }

/-! ## Type compatibility -/

/-- C7: `headerTypeOK h c` is true exactly when basic kind and collection kind
agree and, for a TENSOR configuration, the tensor types agree and, for a
PREDICATE configuration whose header recorded predicate params, the predicate
params agree.  In particular a PREDICATE header without recorded params is
compatible with every PREDICATE configuration of its collection kind, and for
every other basic kind only the two kinds are compared. -/
theorem headerTypeOK_iff :
    (∀ (h : AttributeHeader) (c : Config),
      headerTypeOK h c = true ↔
        h.getBasicType = c.basicType ∧ h.getCollectionType = c.collectionType ∧
        (c.basicType = BasicType.TENSOR → h.getTensorType = c.tensorType) ∧
        (c.basicType = BasicType.PREDICATE → h.getPredicateParamsSet = true →
          h.getPredicateParams = c.predicateParams)) ∧
    (∀ (h : AttributeHeader) (c : Config),
      h.getBasicType = BasicType.PREDICATE → c.basicType = BasicType.PREDICATE →
      h.getPredicateParamsSet = false → h.getCollectionType = c.collectionType →
      headerTypeOK h c = true) ∧
    (∀ (h : AttributeHeader) (c : Config),
      c.basicType ≠ BasicType.TENSOR → c.basicType ≠ BasicType.PREDICATE →
      (headerTypeOK h c = true ↔
        h.getBasicType = c.basicType ∧ h.getCollectionType = c.collectionType)) := by
  refine ⟨?_, ?_, ?_⟩
  · intro h c
    unfold headerTypeOK
    by_cases hb : h.getBasicType = c.basicType <;>
    by_cases hc : h.getCollectionType = c.collectionType <;>
    by_cases ht : c.basicType = BasicType.TENSOR <;>
    by_cases hp : c.basicType = BasicType.PREDICATE <;>
    by_cases hs : h.getPredicateParamsSet = true <;>
    by_cases hv : h.getTensorType = c.tensorType <;>
    by_cases hq : h.getPredicateParams = c.predicateParams <;>
    simp [hb, hc, ht, hp, hs, hv, hq]
  · intro h c hb hp hs hc
    unfold headerTypeOK
    simp [hb, hp, hs, hc]
  · intro h c ht hp
    unfold headerTypeOK
    by_cases hb : h.getBasicType = c.basicType <;>
    by_cases hc : h.getCollectionType = c.collectionType <;>
    simp [hb, hc, ht, hp]

/-! ## The load path -/

/-- C1, as stated, fails for an instance that reports it cannot load: with a
non-empty directory, flushed serial 50, a fresh int32 header (created at 40,
current serial 100), a matching configuration and a `load()` that would return
true, `init` stops at the assertion of `loadAttribute`; it returns no
instance, and neither `load()` nor `commit` is invoked. -/
theorem init_aborts_when_instance_cannot_load :
    (cannotLoadInitializer._attrDir.empty = false ∧
      cannotLoadInitializer._attrDir.getFlushedSerialNum ≠ 0 ∧
      extractHeader (diskOf (headerOf BasicType.INT32 40))
        cannotLoadInitializer.flushedFileName = some (headerOf BasicType.INT32 40) ∧
      (headerOf BasicType.INT32 40).getCreateSerialNum ≤
        cannotLoadInitializer._currentSerialNum ∧
      headerTypeOK (headerOf BasicType.INT32 40) cannotLoadInitializer._cfg = true ∧
      cannotLoadInitializer.flushedAttr.load = true) ∧
    (cannotLoadInitializer.init (diskOf (headerOf BasicType.INT32 40))).completion =
      Completion.assertFailed ∧
    (cannotLoadInitializer.init (diskOf (headerOf BasicType.INT32 40))).completion ≠
      Completion.returned (some cannotLoadInitializer.flushedAttr) ∧
    loads (cannotLoadInitializer.init (diskOf (headerOf BasicType.INT32 40))).events = [] ∧
    commits (cannotLoadInitializer.init (diskOf (headerOf BasicType.INT32 40))).events = [] := by
  decide

/-- C1 (amended): for an existing artifact (directory non-empty, flushed serial
not 0) whose decoded header is fresh (`createSerialNum <= S`) and compatible
with the target configuration, if the instance reports `hasLoadData()` and its
`load()` returns true, then `init` returns that instance, `load()` was invoked
on it once, the only commit issued is `commit(flushedSerial, flushedSerial)`
on it, and `factory.setupEmpty` was not invoked. -/
theorem init_loads_valid_artifact (self : AttributeInitializer) (disk : Disk)
    (header : AttributeHeader)
    (hdir : self._attrDir.empty = false)
    (hflushed : self._attrDir.getFlushedSerialNum ≠ 0)
    (hheader : extractHeader disk self.flushedFileName = some header)
    (hfresh : header.getCreateSerialNum ≤ self._currentSerialNum)
    (htype : headerTypeOK header self._cfg = true)
    (hcan : self.flushedAttr.hasLoadData = true)
    (hload : self.flushedAttr.load = true) :
    (self.init disk).completion = Completion.returned (some self.flushedAttr) ∧
    loads (self.init disk).events = [self.flushedAttr] ∧
    commits (self.init disk).events =
      [(self.flushedAttr, self._attrDir.getFlushedSerialNum,
        self._attrDir.getFlushedSerialNum)] ∧
    setupEmpties (self.init disk).events = [] := by
  have hcfg : self.flushedAttr.getConfig = self._cfg :=
    self._factory.create_getConfig _ _
  unfold AttributeInitializer.flushedAttr AttributeInitializer.flushedFileName at *
  have hnot : ¬ (self._currentSerialNum < header.getCreateSerialNum) := Nat.not_lt.mpr hfresh
  simp [AttributeInitializer.init, AttributeInitializer.tryLoadAttribute,
    AttributeInitializer.loadAttribute, hdir, hflushed, hheader, hnot, hcfg, htype,
    hcan, hload, loads, commits, setupEmpties]

/-- Scenario B: flushed serial 50, int32 header created at 40, current serial
100, matching configuration, loadable instance. -/
theorem init_loads_valid_artifact_scenarioB :
    ((initializerOf (directoryOf false 50) 100 (factoryOf true true)).init
        (diskOf (headerOf BasicType.INT32 40))).completion =
      Completion.returned
        (some (initializerOf (directoryOf false 50) 100 (factoryOf true true)).flushedAttr) ∧
    loads ((initializerOf (directoryOf false 50) 100 (factoryOf true true)).init
        (diskOf (headerOf BasicType.INT32 40))).events =
      [(initializerOf (directoryOf false 50) 100 (factoryOf true true)).flushedAttr] ∧
    commits ((initializerOf (directoryOf false 50) 100 (factoryOf true true)).init
        (diskOf (headerOf BasicType.INT32 40))).events =
      [((initializerOf (directoryOf false 50) 100 (factoryOf true true)).flushedAttr,
        50, 50)] ∧
    setupEmpties ((initializerOf (directoryOf false 50) 100 (factoryOf true true)).init
        (diskOf (headerOf BasicType.INT32 40))).events = [] :=
  init_loads_valid_artifact (initializerOf (directoryOf false 50) 100 (factoryOf true true))
    (diskOf (headerOf BasicType.INT32 40)) (headerOf BasicType.INT32 40)
    rfl (by decide) rfl (by decide) (by decide) rfl rfl

/-! ## The stale and the mistyped artifact -/

/-- C2: for an existing artifact (directory non-empty, flushed serial not 0)
whose decoded header has `createSerialNum > S`, whatever its type descriptor,
`init` returns the created instance, `factory.setupEmpty(instance, S)` was
invoked and then `commit(flushedSerial, flushedSerial)` was issued on it (the
last two calls of the run, each issued once), `load()` was never invoked, and
the "too new" diagnostic was logged. -/
theorem init_resets_too_new_artifact (self : AttributeInitializer) (disk : Disk)
    (header : AttributeHeader)
    (hdir : self._attrDir.empty = false)
    (hflushed : self._attrDir.getFlushedSerialNum ≠ 0)
    (hheader : extractHeader disk self.flushedFileName = some header)
    (hnew : header.getCreateSerialNum > self._currentSerialNum) :
    (self.init disk).completion = Completion.returned (some self.flushedAttr) ∧
    setupEmpties (self.init disk).events = [(self.flushedAttr, self._currentSerialNum)] ∧
    commits (self.init disk).events =
      [(self.flushedAttr, self._attrDir.getFlushedSerialNum,
        self._attrDir.getFlushedSerialNum)] ∧
    (∃ before : List Event, (self.init disk).events = before ++
      [Event.setupEmpty self.flushedAttr self._currentSerialNum,
       Event.commit self.flushedAttr self._attrDir.getFlushedSerialNum
        self._attrDir.getFlushedSerialNum]) ∧
    loads (self.init disk).events = [] ∧
    Event.logAttributeTooNew self.flushedAttr header self._currentSerialNum ∈
      (self.init disk).events := by
  unfold AttributeInitializer.flushedAttr AttributeInitializer.flushedFileName at *
  have hgt : self._currentSerialNum < header.getCreateSerialNum := hnew
  refine ⟨?_, ?_, ?_, ?_, ?_, ?_⟩
  · simp [AttributeInitializer.init, AttributeInitializer.tryLoadAttribute, hdir, hflushed,
      hheader, hgt]
  · by_cases ht : headerTypeOK header
        (self._factory.create (self._attrDir.getAttributeFileName
          self._attrDir.getFlushedSerialNum) self._cfg).getConfig = true <;>
    simp [AttributeInitializer.init, AttributeInitializer.tryLoadAttribute,
      AttributeInitializer.setupEmptyAttribute, hdir, hflushed, hheader, hgt, ht,
      setupEmpties]
  · by_cases ht : headerTypeOK header
        (self._factory.create (self._attrDir.getAttributeFileName
          self._attrDir.getFlushedSerialNum) self._cfg).getConfig = true <;>
    simp [AttributeInitializer.init, AttributeInitializer.tryLoadAttribute,
      AttributeInitializer.setupEmptyAttribute, hdir, hflushed, hheader, hgt, ht,
      commits]
  · refine ⟨[Event.create (self._attrDir.getAttributeFileName
          self._attrDir.getFlushedSerialNum) self._cfg,
        Event.extractHeader (self._attrDir.getAttributeFileName
          self._attrDir.getFlushedSerialNum)] ++
        ((if header.getCreateSerialNum > self._currentSerialNum then
            [Event.logAttributeTooNew (self._factory.create
              (self._attrDir.getAttributeFileName self._attrDir.getFlushedSerialNum)
              self._cfg) header self._currentSerialNum]
          else []) ++
        (if headerTypeOK header (self._factory.create
              (self._attrDir.getAttributeFileName self._attrDir.getFlushedSerialNum)
              self._cfg).getConfig = false then
            [Event.logAttributeWrongType (self._factory.create
              (self._attrDir.getAttributeFileName self._attrDir.getFlushedSerialNum)
              self._cfg) header]
          else []) ++
        [Event.logReturningEmpty (self._factory.create
              (self._attrDir.getAttributeFileName self._attrDir.getFlushedSerialNum)
              self._cfg)]), ?_⟩
    simp [AttributeInitializer.init, AttributeInitializer.tryLoadAttribute,
      AttributeInitializer.setupEmptyAttribute, hdir, hflushed, hheader, hgt]
  · by_cases ht : headerTypeOK header
        (self._factory.create (self._attrDir.getAttributeFileName
          self._attrDir.getFlushedSerialNum) self._cfg).getConfig = true <;>
    simp [AttributeInitializer.init, AttributeInitializer.tryLoadAttribute,
      AttributeInitializer.setupEmptyAttribute, hdir, hflushed, hheader, hgt, ht,
      loads]
  · simp [AttributeInitializer.init, AttributeInitializer.tryLoadAttribute,
      AttributeInitializer.setupEmptyAttribute, hdir, hflushed, hheader, hgt]

/-- Scenario C: flushed serial 50, header created at 120, current serial 100. -/
theorem init_resets_too_new_artifact_scenarioC :
    ((initializerOf (directoryOf false 50) 100 (factoryOf true true)).init
        (diskOf (headerOf BasicType.INT32 120))).completion =
      Completion.returned
        (some (initializerOf (directoryOf false 50) 100 (factoryOf true true)).flushedAttr) ∧
    setupEmpties ((initializerOf (directoryOf false 50) 100 (factoryOf true true)).init
        (diskOf (headerOf BasicType.INT32 120))).events =
      [((initializerOf (directoryOf false 50) 100 (factoryOf true true)).flushedAttr, 100)] ∧
    commits ((initializerOf (directoryOf false 50) 100 (factoryOf true true)).init
        (diskOf (headerOf BasicType.INT32 120))).events =
      [((initializerOf (directoryOf false 50) 100 (factoryOf true true)).flushedAttr,
        50, 50)] ∧
    (∃ before : List Event,
      ((initializerOf (directoryOf false 50) 100 (factoryOf true true)).init
        (diskOf (headerOf BasicType.INT32 120))).events = before ++
      [Event.setupEmpty
        (initializerOf (directoryOf false 50) 100 (factoryOf true true)).flushedAttr 100,
       Event.commit
        (initializerOf (directoryOf false 50) 100 (factoryOf true true)).flushedAttr 50 50]) ∧
    loads ((initializerOf (directoryOf false 50) 100 (factoryOf true true)).init
        (diskOf (headerOf BasicType.INT32 120))).events = [] ∧
    Event.logAttributeTooNew
        (initializerOf (directoryOf false 50) 100 (factoryOf true true)).flushedAttr
        (headerOf BasicType.INT32 120) 100 ∈
      ((initializerOf (directoryOf false 50) 100 (factoryOf true true)).init
        (diskOf (headerOf BasicType.INT32 120))).events :=
  init_resets_too_new_artifact (initializerOf (directoryOf false 50) 100 (factoryOf true true))
    (diskOf (headerOf BasicType.INT32 120)) (headerOf BasicType.INT32 120)
    rfl (by decide) rfl (by decide)

/-- C3: for an existing artifact (directory non-empty, flushed serial not 0)
whose decoded header's type descriptor is incompatible with the target
configuration, also when `createSerialNum <= S`, `init` returns the created
instance, `factory.setupEmpty(instance, S)` was invoked and then
`commit(flushedSerial, flushedSerial)` was issued on it (the last two calls of
the run, each issued once), `load()` was never invoked, and the "wrong type"
diagnostic was logged. -/
theorem init_resets_mistyped_artifact (self : AttributeInitializer) (disk : Disk)
    (header : AttributeHeader)
    (hdir : self._attrDir.empty = false)
    (hflushed : self._attrDir.getFlushedSerialNum ≠ 0)
    (hheader : extractHeader disk self.flushedFileName = some header)
    (htype : headerTypeOK header self._cfg = false) :
    (self.init disk).completion = Completion.returned (some self.flushedAttr) ∧
    setupEmpties (self.init disk).events = [(self.flushedAttr, self._currentSerialNum)] ∧
    commits (self.init disk).events =
      [(self.flushedAttr, self._attrDir.getFlushedSerialNum,
        self._attrDir.getFlushedSerialNum)] ∧
    (∃ before : List Event, (self.init disk).events = before ++
      [Event.setupEmpty self.flushedAttr self._currentSerialNum,
       Event.commit self.flushedAttr self._attrDir.getFlushedSerialNum
        self._attrDir.getFlushedSerialNum]) ∧
    loads (self.init disk).events = [] ∧
    Event.logAttributeWrongType self.flushedAttr header ∈ (self.init disk).events := by
  have hcfg : self.flushedAttr.getConfig = self._cfg :=
    self._factory.create_getConfig _ _
  unfold AttributeInitializer.flushedAttr AttributeInitializer.flushedFileName at *
  refine ⟨?_, ?_, ?_, ?_, ?_, ?_⟩
  · simp [AttributeInitializer.init, AttributeInitializer.tryLoadAttribute, hdir, hflushed,
      hheader, hcfg, htype]
  · by_cases hn : self._currentSerialNum < header.getCreateSerialNum <;>
    simp [AttributeInitializer.init, AttributeInitializer.tryLoadAttribute,
      AttributeInitializer.setupEmptyAttribute, hdir, hflushed, hheader, hcfg, htype, hn,
      setupEmpties]
  · by_cases hn : self._currentSerialNum < header.getCreateSerialNum <;>
    simp [AttributeInitializer.init, AttributeInitializer.tryLoadAttribute,
      AttributeInitializer.setupEmptyAttribute, hdir, hflushed, hheader, hcfg, htype, hn,
      commits]
  · refine ⟨[Event.create (self._attrDir.getAttributeFileName
          self._attrDir.getFlushedSerialNum) self._cfg,
        Event.extractHeader (self._attrDir.getAttributeFileName
          self._attrDir.getFlushedSerialNum)] ++
        ((if header.getCreateSerialNum > self._currentSerialNum then
            [Event.logAttributeTooNew (self._factory.create
              (self._attrDir.getAttributeFileName self._attrDir.getFlushedSerialNum)
              self._cfg) header self._currentSerialNum]
          else []) ++
        [Event.logAttributeWrongType (self._factory.create
              (self._attrDir.getAttributeFileName self._attrDir.getFlushedSerialNum)
              self._cfg) header,
         Event.logReturningEmpty (self._factory.create
              (self._attrDir.getAttributeFileName self._attrDir.getFlushedSerialNum)
              self._cfg)]), ?_⟩
    simp [AttributeInitializer.init, AttributeInitializer.tryLoadAttribute,
      AttributeInitializer.setupEmptyAttribute, hdir, hflushed, hheader, hcfg, htype]
  · by_cases hn : self._currentSerialNum < header.getCreateSerialNum <;>
    simp [AttributeInitializer.init, AttributeInitializer.tryLoadAttribute,
      AttributeInitializer.setupEmptyAttribute, hdir, hflushed, hheader, hcfg, htype, hn,
      loads]
  · simp [AttributeInitializer.init, AttributeInitializer.tryLoadAttribute,
      AttributeInitializer.setupEmptyAttribute, hdir, hflushed, hheader, hcfg, htype]

/-- Scenario D: flushed serial 50, string header created at 10, current serial
100, scalar int32 configuration. -/
theorem init_resets_mistyped_artifact_scenarioD :
    ((initializerOf (directoryOf false 50) 100 (factoryOf true true)).init
        (diskOf (headerOf BasicType.STRING 10))).completion =
      Completion.returned
        (some (initializerOf (directoryOf false 50) 100 (factoryOf true true)).flushedAttr) ∧
    setupEmpties ((initializerOf (directoryOf false 50) 100 (factoryOf true true)).init
        (diskOf (headerOf BasicType.STRING 10))).events =
      [((initializerOf (directoryOf false 50) 100 (factoryOf true true)).flushedAttr, 100)] ∧
    commits ((initializerOf (directoryOf false 50) 100 (factoryOf true true)).init
        (diskOf (headerOf BasicType.STRING 10))).events =
      [((initializerOf (directoryOf false 50) 100 (factoryOf true true)).flushedAttr,
        50, 50)] ∧
    (∃ before : List Event,
      ((initializerOf (directoryOf false 50) 100 (factoryOf true true)).init
        (diskOf (headerOf BasicType.STRING 10))).events = before ++
      [Event.setupEmpty
        (initializerOf (directoryOf false 50) 100 (factoryOf true true)).flushedAttr 100,
       Event.commit
        (initializerOf (directoryOf false 50) 100 (factoryOf true true)).flushedAttr 50 50]) ∧
    loads ((initializerOf (directoryOf false 50) 100 (factoryOf true true)).init
        (diskOf (headerOf BasicType.STRING 10))).events = [] ∧
    Event.logAttributeWrongType
        (initializerOf (directoryOf false 50) 100 (factoryOf true true)).flushedAttr
        (headerOf BasicType.STRING 10) ∈
      ((initializerOf (directoryOf false 50) 100 (factoryOf true true)).init
        (diskOf (headerOf BasicType.STRING 10))).events :=
  init_resets_mistyped_artifact (initializerOf (directoryOf false 50) 100 (factoryOf true true))
    (diskOf (headerOf BasicType.STRING 10)) (headerOf BasicType.STRING 10)
    rfl (by decide) rfl (by decide)

/-! ## Load failure -/

/-- C4, as stated, fails for an instance that reports it cannot load: with a
non-empty directory, flushed serial 50, a fresh int32 header (created at 40,
current serial 100), a matching configuration and a `load()` that would return
false, `init` does not return the null pointer: it stops at the assertion of
`loadAttribute`. -/
theorem init_aborts_instead_of_null_when_instance_cannot_load :
    (cannotLoadFailingInitializer._attrDir.empty = false ∧
      cannotLoadFailingInitializer._attrDir.getFlushedSerialNum ≠ 0 ∧
      extractHeader (diskOf (headerOf BasicType.INT32 40))
        cannotLoadFailingInitializer.flushedFileName = some (headerOf BasicType.INT32 40) ∧
      (headerOf BasicType.INT32 40).getCreateSerialNum ≤
        cannotLoadFailingInitializer._currentSerialNum ∧
      headerTypeOK (headerOf BasicType.INT32 40) cannotLoadFailingInitializer._cfg = true ∧
      cannotLoadFailingInitializer.flushedAttr.load = false) ∧
    (cannotLoadFailingInitializer.init (diskOf (headerOf BasicType.INT32 40))).completion =
      Completion.assertFailed ∧
    (cannotLoadFailingInitializer.init (diskOf (headerOf BasicType.INT32 40))).completion ≠
      Completion.returned none := by
  decide

/-- C4 (amended): for an existing artifact (directory non-empty, flushed serial
not 0) whose decoded header passes the freshness check and the type check, if
the instance's `load()` returns false then `init` hands no instance to the
caller: it returns the null pointer when the instance reports `hasLoadData()`
and stops at the assertion of `loadAttribute` when it does not; no commit is
issued and `factory.setupEmpty` is not invoked. -/
theorem init_load_failure_hands_no_instance (self : AttributeInitializer) (disk : Disk)
    (header : AttributeHeader)
    (hdir : self._attrDir.empty = false)
    (hflushed : self._attrDir.getFlushedSerialNum ≠ 0)
    (hheader : extractHeader disk self.flushedFileName = some header)
    (hfresh : header.getCreateSerialNum ≤ self._currentSerialNum)
    (htype : headerTypeOK header self._cfg = true)
    (hload : self.flushedAttr.load = false) :
    (∀ attr : AttributeVector,
      (self.init disk).completion ≠ Completion.returned (some attr)) ∧
    (self.flushedAttr.hasLoadData = true →
      (self.init disk).completion = Completion.returned none) ∧
    (self.flushedAttr.hasLoadData = false →
      (self.init disk).completion = Completion.assertFailed) ∧
    commits (self.init disk).events = [] ∧
    setupEmpties (self.init disk).events = [] := by
  have hcfg : self.flushedAttr.getConfig = self._cfg :=
    self._factory.create_getConfig _ _
  unfold AttributeInitializer.flushedAttr AttributeInitializer.flushedFileName at *
  have hnot : ¬ (self._currentSerialNum < header.getCreateSerialNum) := Nat.not_lt.mpr hfresh
  by_cases hcan : (self._factory.create (self._attrDir.getAttributeFileName
      self._attrDir.getFlushedSerialNum) self._cfg).hasLoadData = true <;>
  simp [AttributeInitializer.init, AttributeInitializer.tryLoadAttribute,
    AttributeInitializer.loadAttribute, hdir, hflushed, hheader, hnot, hcfg, htype,
    hcan, hload, commits, setupEmpties]

/-- Scenario E: flushed serial 50, valid header, `load()` returns false. -/
theorem init_load_failure_hands_no_instance_scenarioE :
    (∀ attr : AttributeVector,
      ((initializerOf (directoryOf false 50) 100 (factoryOf true false)).init
        (diskOf (headerOf BasicType.INT32 40))).completion ≠
        Completion.returned (some attr)) ∧
    ((initializerOf (directoryOf false 50) 100 (factoryOf true false)).flushedAttr.hasLoadData
        = true →
      ((initializerOf (directoryOf false 50) 100 (factoryOf true false)).init
        (diskOf (headerOf BasicType.INT32 40))).completion = Completion.returned none) ∧
    ((initializerOf (directoryOf false 50) 100 (factoryOf true false)).flushedAttr.hasLoadData
        = false →
      ((initializerOf (directoryOf false 50) 100 (factoryOf true false)).init
        (diskOf (headerOf BasicType.INT32 40))).completion = Completion.assertFailed) ∧
    commits ((initializerOf (directoryOf false 50) 100 (factoryOf true false)).init
        (diskOf (headerOf BasicType.INT32 40))).events = [] ∧
    setupEmpties ((initializerOf (directoryOf false 50) 100 (factoryOf true false)).init
        (diskOf (headerOf BasicType.INT32 40))).events = [] :=
  init_load_failure_hands_no_instance
    (initializerOf (directoryOf false 50) 100 (factoryOf true false))
    (diskOf (headerOf BasicType.INT32 40)) (headerOf BasicType.INT32 40)
    rfl (by decide) rfl (by decide) (by decide) rfl

/-! ## No persisted generation -/

/-- C5: if the directory reports `empty()`, `init` returns the instance made by
`factory.create(directory.getAttributeFileName(0), C)`, the one factory call
made; its configuration is `C`; `factory.setupEmpty(instance, S)` was invoked
exactly once; no commit, no `load()` and no header decode took place. -/
theorem init_empty_directory (self : AttributeInitializer) (disk : Disk)
    (hdir : self._attrDir.empty = true) :
    (self.init disk).completion = Completion.returned (some self.emptyAttr) ∧
    self.emptyAttr = self._factory.create (self._attrDir.getAttributeFileName 0) self._cfg ∧
    self.emptyAttr.getConfig = self._cfg ∧
    creates (self.init disk).events = [(self._attrDir.getAttributeFileName 0, self._cfg)] ∧
    setupEmpties (self.init disk).events = [(self.emptyAttr, self._currentSerialNum)] ∧
    commits (self.init disk).events = [] ∧
    loads (self.init disk).events = [] ∧
    headerDecodes (self.init disk).events = [] := by
  have hcfg : self.emptyAttr.getConfig = self._cfg :=
    self._factory.create_getConfig _ _
  refine ⟨?_, rfl, hcfg, ?_, ?_, ?_, ?_, ?_⟩ <;>
  simp [AttributeInitializer.init, AttributeInitializer.createAndSetupEmptyAttribute,
    AttributeInitializer.emptyAttr, hdir, creates, setupEmpties, commits, loads,
    headerDecodes]

/-- Scenario A: empty directory, current serial 100, scalar int32
configuration. -/
theorem init_empty_directory_scenarioA :
    ((initializerOf (directoryOf true 0) 100 (factoryOf true true)).init
        brokenDisk).completion =
      Completion.returned
        (some (initializerOf (directoryOf true 0) 100 (factoryOf true true)).emptyAttr) ∧
    (initializerOf (directoryOf true 0) 100 (factoryOf true true)).emptyAttr =
      (initializerOf (directoryOf true 0) 100 (factoryOf true true))._factory.create
        ((initializerOf (directoryOf true 0) 100
          (factoryOf true true))._attrDir.getAttributeFileName 0)
        (initializerOf (directoryOf true 0) 100 (factoryOf true true))._cfg ∧
    (initializerOf (directoryOf true 0) 100 (factoryOf true true)).emptyAttr.getConfig =
      (initializerOf (directoryOf true 0) 100 (factoryOf true true))._cfg ∧
    creates ((initializerOf (directoryOf true 0) 100 (factoryOf true true)).init
        brokenDisk).events =
      [((initializerOf (directoryOf true 0) 100
          (factoryOf true true))._attrDir.getAttributeFileName 0,
        (initializerOf (directoryOf true 0) 100 (factoryOf true true))._cfg)] ∧
    setupEmpties ((initializerOf (directoryOf true 0) 100 (factoryOf true true)).init
        brokenDisk).events =
      [((initializerOf (directoryOf true 0) 100 (factoryOf true true)).emptyAttr,
        (initializerOf (directoryOf true 0) 100 (factoryOf true true))._currentSerialNum)] ∧
    commits ((initializerOf (directoryOf true 0) 100 (factoryOf true true)).init
        brokenDisk).events = [] ∧
    loads ((initializerOf (directoryOf true 0) 100 (factoryOf true true)).init
        brokenDisk).events = [] ∧
    headerDecodes ((initializerOf (directoryOf true 0) 100 (factoryOf true true)).init
        brokenDisk).events = [] :=
  init_empty_directory (initializerOf (directoryOf true 0) 100 (factoryOf true true))
    brokenDisk rfl

/-- C10: for a non-empty directory whose flushed serial is 0, `init` calls
`factory.create(directory.getAttributeFileName(0), C)`, then
`factory.setupEmpty(instance, S)`, and returns that instance; these two are
the only calls of the run: no header is decoded, `load()` is not invoked and
no commit is issued. -/
theorem init_zero_flushed_serial (self : AttributeInitializer) (disk : Disk)
    (hdir : self._attrDir.empty = false)
    (hflushed : self._attrDir.getFlushedSerialNum = 0) :
    (self.init disk).completion = Completion.returned (some self.emptyAttr) ∧
    self.emptyAttr = self._factory.create (self._attrDir.getAttributeFileName 0) self._cfg ∧
    (self.init disk).events =
      [Event.create (self._attrDir.getAttributeFileName 0) self._cfg,
       Event.setupEmpty self.emptyAttr self._currentSerialNum] ∧
    setupEmpties (self.init disk).events = [(self.emptyAttr, self._currentSerialNum)] ∧
    headerDecodes (self.init disk).events = [] ∧
    loads (self.init disk).events = [] ∧
    commits (self.init disk).events = [] := by
  refine ⟨?_, rfl, ?_, ?_, ?_, ?_, ?_⟩ <;>
  simp [AttributeInitializer.init, AttributeInitializer.tryLoadAttribute,
    AttributeInitializer.emptyAttr, hdir, hflushed, setupEmpties, commits, loads,
    headerDecodes]

/-- A non-empty directory with flushed serial 0, current serial 100. -/
theorem init_zero_flushed_serial_at_100 :
    ((initializerOf (directoryOf false 0) 100 (factoryOf true true)).init
        brokenDisk).completion =
      Completion.returned
        (some (initializerOf (directoryOf false 0) 100 (factoryOf true true)).emptyAttr) ∧
    (initializerOf (directoryOf false 0) 100 (factoryOf true true)).emptyAttr =
      (initializerOf (directoryOf false 0) 100 (factoryOf true true))._factory.create
        ((initializerOf (directoryOf false 0) 100
          (factoryOf true true))._attrDir.getAttributeFileName 0)
        (initializerOf (directoryOf false 0) 100 (factoryOf true true))._cfg ∧
    ((initializerOf (directoryOf false 0) 100 (factoryOf true true)).init
        brokenDisk).events =
      [Event.create
        ((initializerOf (directoryOf false 0) 100
          (factoryOf true true))._attrDir.getAttributeFileName 0)
        (initializerOf (directoryOf false 0) 100 (factoryOf true true))._cfg,
       Event.setupEmpty
        (initializerOf (directoryOf false 0) 100 (factoryOf true true)).emptyAttr
        (initializerOf (directoryOf false 0) 100 (factoryOf true true))._currentSerialNum] ∧
    setupEmpties ((initializerOf (directoryOf false 0) 100 (factoryOf true true)).init
        brokenDisk).events =
      [((initializerOf (directoryOf false 0) 100 (factoryOf true true)).emptyAttr,
        (initializerOf (directoryOf false 0) 100 (factoryOf true true))._currentSerialNum)] ∧
    headerDecodes ((initializerOf (directoryOf false 0) 100 (factoryOf true true)).init
        brokenDisk).events = [] ∧
    loads ((initializerOf (directoryOf false 0) 100 (factoryOf true true)).init
        brokenDisk).events = [] ∧
    commits ((initializerOf (directoryOf false 0) 100 (factoryOf true true)).init
        brokenDisk).events = [] :=
  init_zero_flushed_serial (initializerOf (directoryOf false 0) 100 (factoryOf true true))
    brokenDisk rfl rfl

/-! ## Invariants of the handed-over instance -/

/-- C6, as stated, fails: an artifact flushed at serial 200 whose int32 header
was created at serial 10 is fresh and compatible at current serial 100, so it
is loaded, handed to the caller and committed at (200, 200), above the current
serial. -/
theorem init_commits_above_current_serial :
    (flushedLaterInitializer.init (diskOf (headerOf BasicType.INT32 10))).completion =
      Completion.returned (some flushedLaterInitializer.flushedAttr) ∧
    (flushedLaterInitializer.flushedAttr, 200, 200) ∈
      commits (flushedLaterInitializer.init (diskOf (headerOf BasicType.INT32 10))).events ∧
    ¬ (200 ≤ flushedLaterInitializer._currentSerialNum) := by
  decide

/-- C6 (amended): whenever a `commit(w, r)` was issued on an instance in a run
of `init`, in particular on the instance handed to the caller, both serial
numbers are the directory's flushed serial; they are bounded by the current
serial `S` exactly when the flushed serial is. -/
theorem init_commit_is_flushed_serial (self : AttributeInitializer) (disk : Disk)
    (attr : AttributeVector) (w r : Nat)
    (hcommit : (attr, w, r) ∈ commits (self.init disk).events) :
    w = self._attrDir.getFlushedSerialNum ∧ r = self._attrDir.getFlushedSerialNum ∧
    ((w ≤ self._currentSerialNum ∧ r ≤ self._currentSerialNum) ↔
      self._attrDir.getFlushedSerialNum ≤ self._currentSerialNum) := by
  have key : w = self._attrDir.getFlushedSerialNum ∧
      r = self._attrDir.getFlushedSerialNum := by
    by_cases hdir : self._attrDir.empty = false
    · by_cases hflushed : self._attrDir.getFlushedSerialNum = 0
      · simp [AttributeInitializer.init, AttributeInitializer.tryLoadAttribute, hdir,
          hflushed, commits] at hcommit
      · cases hheader : extractHeader disk
            (self._attrDir.getAttributeFileName self._attrDir.getFlushedSerialNum) with
        | none =>
          simp [AttributeInitializer.init, AttributeInitializer.tryLoadAttribute, hdir,
            hflushed, hheader, commits] at hcommit
        | some header =>
          by_cases hn : self._currentSerialNum < header.getCreateSerialNum <;>
          by_cases ht : headerTypeOK header
              (self._factory.create (self._attrDir.getAttributeFileName
                self._attrDir.getFlushedSerialNum) self._cfg).getConfig = true <;>
          by_cases hcan : (self._factory.create (self._attrDir.getAttributeFileName
              self._attrDir.getFlushedSerialNum) self._cfg).hasLoadData = true <;>
          by_cases hload : (self._factory.create (self._attrDir.getAttributeFileName
              self._attrDir.getFlushedSerialNum) self._cfg).load = true <;>
          simp [AttributeInitializer.init, AttributeInitializer.tryLoadAttribute,
            AttributeInitializer.setupEmptyAttribute, AttributeInitializer.loadAttribute,
            hdir, hflushed, hheader, hn, ht, hcan, hload, commits] at hcommit <;>
          exact ⟨hcommit.2.1, hcommit.2.2⟩
    · simp [AttributeInitializer.init, AttributeInitializer.createAndSetupEmptyAttribute,
        hdir, commits] at hcommit
  obtain ⟨hw, hr⟩ := key
  subst hw
  subst hr
  simp

/-- The artifact flushed at serial 200 and loaded at current serial 100: its
commit is (200, 200). -/
theorem init_commit_is_flushed_serial_at_200 :
    200 = flushedLaterInitializer._attrDir.getFlushedSerialNum ∧
    200 = flushedLaterInitializer._attrDir.getFlushedSerialNum ∧
    ((200 ≤ flushedLaterInitializer._currentSerialNum ∧
        200 ≤ flushedLaterInitializer._currentSerialNum) ↔
      flushedLaterInitializer._attrDir.getFlushedSerialNum ≤
        flushedLaterInitializer._currentSerialNum) :=
  init_commit_is_flushed_serial flushedLaterInitializer
    (diskOf (headerOf BasicType.INT32 10)) flushedLaterInitializer.flushedAttr 200 200
    (by decide)

/-- C8: whenever `init` hands an instance to the caller, that instance is the
one made by the single call `factory.create(fileName, C)` with the target
configuration `C`, its configuration is `C`, and if `load()` was invoked then
it was invoked on that instance and the header decoded from the instance's
file is compatible with `C`; with an incompatible on-disk header `load()` is
never invoked. -/
theorem init_hands_over_instance_of_target_config (self : AttributeInitializer)
    (disk : Disk) (attr : AttributeVector)
    (hret : (self.init disk).completion = Completion.returned (some attr)) :
    ∃ attrFileName : String,
      creates (self.init disk).events = [(attrFileName, self._cfg)] ∧
      attr = self._factory.create attrFileName self._cfg ∧
      attr.getConfig = self._cfg ∧
      (∀ loaded ∈ loads (self.init disk).events,
        loaded = attr ∧
        ∃ header : AttributeHeader,
          extractHeader disk attrFileName = some header ∧
          headerTypeOK header self._cfg = true) ∧
      (∀ header : AttributeHeader,
        extractHeader disk attrFileName = some header →
        headerTypeOK header self._cfg = false →
        loads (self.init disk).events = []) := by
  by_cases hdir : self._attrDir.empty = false
  · refine ⟨self._attrDir.getAttributeFileName self._attrDir.getFlushedSerialNum, ?_⟩
    have hcfg : (self._factory.create (self._attrDir.getAttributeFileName
        self._attrDir.getFlushedSerialNum) self._cfg).getConfig = self._cfg :=
      self._factory.create_getConfig _ _
    by_cases hflushed : self._attrDir.getFlushedSerialNum = 0
    · simp [AttributeInitializer.init, AttributeInitializer.tryLoadAttribute, hdir,
        hflushed] at hret
      subst hret
      simp [AttributeInitializer.init, AttributeInitializer.tryLoadAttribute, hdir,
        hflushed, creates, loads, self._factory.create_getConfig]
    · cases hheader : extractHeader disk
          (self._attrDir.getAttributeFileName self._attrDir.getFlushedSerialNum) with
      | none =>
        simp [AttributeInitializer.init, AttributeInitializer.tryLoadAttribute, hdir,
          hflushed, hheader] at hret
      | some header =>
        by_cases hn : self._currentSerialNum < header.getCreateSerialNum <;>
        by_cases ht : headerTypeOK header self._cfg = true <;>
        by_cases hcan : (self._factory.create (self._attrDir.getAttributeFileName
            self._attrDir.getFlushedSerialNum) self._cfg).hasLoadData = true <;>
        by_cases hload : (self._factory.create (self._attrDir.getAttributeFileName
            self._attrDir.getFlushedSerialNum) self._cfg).load = true <;>
        simp [AttributeInitializer.init, AttributeInitializer.tryLoadAttribute,
          AttributeInitializer.setupEmptyAttribute, AttributeInitializer.loadAttribute,
          hdir, hflushed, hheader, hcfg, hn, ht, hcan, hload] at hret <;>
        subst hret <;>
        simp [AttributeInitializer.init, AttributeInitializer.tryLoadAttribute,
          AttributeInitializer.setupEmptyAttribute, AttributeInitializer.loadAttribute,
          hdir, hflushed, hheader, hcfg, hn, ht, hcan, hload, creates, loads]
  · refine ⟨self._attrDir.getAttributeFileName 0, ?_⟩
    simp [AttributeInitializer.init, AttributeInitializer.createAndSetupEmptyAttribute,
      hdir] at hret
    subst hret
    simp [AttributeInitializer.init, AttributeInitializer.createAndSetupEmptyAttribute,
      hdir, creates, loads, self._factory.create_getConfig]

/-- Scenario B: the loaded instance is the one created for the target
configuration, and the header it was loaded from is compatible with it. -/
theorem init_hands_over_instance_of_target_config_scenarioB :
    ∃ attrFileName : String,
      creates (loadingInitializer.init (diskOf (headerOf BasicType.INT32 40))).events =
        [(attrFileName, loadingInitializer._cfg)] ∧
      loadingInitializer.flushedAttr =
        loadingInitializer._factory.create attrFileName loadingInitializer._cfg ∧
      loadingInitializer.flushedAttr.getConfig = loadingInitializer._cfg ∧
      (∀ loaded ∈ loads (loadingInitializer.init
          (diskOf (headerOf BasicType.INT32 40))).events,
        loaded = loadingInitializer.flushedAttr ∧
        ∃ header : AttributeHeader,
          extractHeader (diskOf (headerOf BasicType.INT32 40)) attrFileName = some header ∧
          headerTypeOK header loadingInitializer._cfg = true) ∧
      (∀ header : AttributeHeader,
        extractHeader (diskOf (headerOf BasicType.INT32 40)) attrFileName = some header →
        headerTypeOK header loadingInitializer._cfg = false →
        loads (loadingInitializer.init (diskOf (headerOf BasicType.INT32 40))).events = []) :=
  init_hands_over_instance_of_target_config loadingInitializer
    (diskOf (headerOf BasicType.INT32 40)) loadingInitializer.flushedAttr (by decide)

/-! ## The failure signal -/

/-- C9: if `init` completes, it returns the null pointer if and only if
`load()` was invoked and returned false.  On the empty-directory path, the
zero-flushed-serial path, the too-new path and the wrong-type path `init`
always completes and returns the created instance. -/
theorem init_null_iff_load_failed (self : AttributeInitializer) (disk : Disk)
    (result : Option AttributeVector)
    (hret : (self.init disk).completion = Completion.returned result) :
    (result = none ↔ ∃ attr ∈ loads (self.init disk).events, attr.load = false) ∧
    (self._attrDir.empty = true →
      (self.init disk).completion = Completion.returned (some self.emptyAttr)) ∧
    (self._attrDir.empty = false → self._attrDir.getFlushedSerialNum = 0 →
      (self.init disk).completion = Completion.returned (some self.emptyAttr)) ∧
    (∀ header : AttributeHeader,
      self._attrDir.empty = false → self._attrDir.getFlushedSerialNum ≠ 0 →
      extractHeader disk self.flushedFileName = some header →
      header.getCreateSerialNum > self._currentSerialNum →
      (self.init disk).completion = Completion.returned (some self.flushedAttr)) ∧
    (∀ header : AttributeHeader,
      self._attrDir.empty = false → self._attrDir.getFlushedSerialNum ≠ 0 →
      extractHeader disk self.flushedFileName = some header →
      headerTypeOK header self._cfg = false →
      (self.init disk).completion = Completion.returned (some self.flushedAttr)) := by
  have hcfg : (self._factory.create (self._attrDir.getAttributeFileName
      self._attrDir.getFlushedSerialNum) self._cfg).getConfig = self._cfg :=
    self._factory.create_getConfig _ _
  refine ⟨?_, ?_, ?_, ?_, ?_⟩
  · by_cases hdir : self._attrDir.empty = false
    · by_cases hflushed : self._attrDir.getFlushedSerialNum = 0
      · simp [AttributeInitializer.init, AttributeInitializer.tryLoadAttribute, hdir,
          hflushed] at hret
        subst hret
        simp [AttributeInitializer.init, AttributeInitializer.tryLoadAttribute, hdir,
          hflushed, loads]
      · cases hheader : extractHeader disk
            (self._attrDir.getAttributeFileName self._attrDir.getFlushedSerialNum) with
        | none =>
          simp [AttributeInitializer.init, AttributeInitializer.tryLoadAttribute, hdir,
            hflushed, hheader] at hret
        | some header =>
          by_cases hn : self._currentSerialNum < header.getCreateSerialNum <;>
          by_cases ht : headerTypeOK header self._cfg = true <;>
          by_cases hcan : (self._factory.create (self._attrDir.getAttributeFileName
              self._attrDir.getFlushedSerialNum) self._cfg).hasLoadData = true <;>
          by_cases hload : (self._factory.create (self._attrDir.getAttributeFileName
              self._attrDir.getFlushedSerialNum) self._cfg).load = true <;>
          simp [AttributeInitializer.init, AttributeInitializer.tryLoadAttribute,
            AttributeInitializer.setupEmptyAttribute, AttributeInitializer.loadAttribute,
            hdir, hflushed, hheader, hcfg, hn, ht, hcan, hload] at hret <;>
          subst hret <;>
          simp [AttributeInitializer.init, AttributeInitializer.tryLoadAttribute,
            AttributeInitializer.setupEmptyAttribute, AttributeInitializer.loadAttribute,
            hdir, hflushed, hheader, hcfg, hn, ht, hcan, hload, loads]
    · simp [AttributeInitializer.init, AttributeInitializer.createAndSetupEmptyAttribute,
        hdir] at hret
      subst hret
      simp [AttributeInitializer.init, AttributeInitializer.createAndSetupEmptyAttribute,
        hdir, loads]
  · intro hdir
    simp [AttributeInitializer.init, AttributeInitializer.createAndSetupEmptyAttribute,
      AttributeInitializer.emptyAttr, hdir]
  · intro hdir hflushed
    simp [AttributeInitializer.init, AttributeInitializer.tryLoadAttribute,
      AttributeInitializer.emptyAttr, hdir, hflushed]
  · intro header hdir hflushed hheader hnew
    unfold AttributeInitializer.flushedAttr AttributeInitializer.flushedFileName at *
    have hgt : self._currentSerialNum < header.getCreateSerialNum := hnew
    simp [AttributeInitializer.init, AttributeInitializer.tryLoadAttribute, hdir, hflushed,
      hheader, hgt]
  · intro header hdir hflushed hheader htype
    unfold AttributeInitializer.flushedAttr AttributeInitializer.flushedFileName at *
    simp [AttributeInitializer.init, AttributeInitializer.tryLoadAttribute, hdir, hflushed,
      hheader, hcfg, htype]

/-- Scenario E: `load()` is invoked, returns false, and `init` returns the null
pointer. -/
theorem init_null_iff_load_failed_scenarioE :
    ((none : Option AttributeVector) = none ↔
      ∃ attr ∈ loads (failingInitializer.init
        (diskOf (headerOf BasicType.INT32 40))).events, attr.load = false) ∧
    (failingInitializer._attrDir.empty = true →
      (failingInitializer.init (diskOf (headerOf BasicType.INT32 40))).completion =
        Completion.returned (some failingInitializer.emptyAttr)) ∧
    (failingInitializer._attrDir.empty = false →
      failingInitializer._attrDir.getFlushedSerialNum = 0 →
      (failingInitializer.init (diskOf (headerOf BasicType.INT32 40))).completion =
        Completion.returned (some failingInitializer.emptyAttr)) ∧
    (∀ header : AttributeHeader,
      failingInitializer._attrDir.empty = false →
      failingInitializer._attrDir.getFlushedSerialNum ≠ 0 →
      extractHeader (diskOf (headerOf BasicType.INT32 40))
        failingInitializer.flushedFileName = some header →
      header.getCreateSerialNum > failingInitializer._currentSerialNum →
      (failingInitializer.init (diskOf (headerOf BasicType.INT32 40))).completion =
        Completion.returned (some failingInitializer.flushedAttr)) ∧
    (∀ header : AttributeHeader,
      failingInitializer._attrDir.empty = false →
      failingInitializer._attrDir.getFlushedSerialNum ≠ 0 →
      extractHeader (diskOf (headerOf BasicType.INT32 40))
        failingInitializer.flushedFileName = some header →
      headerTypeOK header failingInitializer._cfg = false →
      (failingInitializer.init (diskOf (headerOf BasicType.INT32 40))).completion =
        Completion.returned (some failingInitializer.flushedAttr)) :=
  init_null_iff_load_failed failingInitializer (diskOf (headerOf BasicType.INT32 40)) none
    (by decide)

/-! ## One recovery action per run -/

/-- C11: every run of `init` that returns executes exactly one recovery action:
either `load()` was invoked once and `factory.setupEmpty` not at all, or
`factory.setupEmpty` was invoked once and `load()` not at all;
`factory.create` was invoked exactly once and commit at most once. -/
theorem init_one_recovery_action (self : AttributeInitializer) (disk : Disk)
    (result : Option AttributeVector)
    (hret : (self.init disk).completion = Completion.returned result) :
    (((loads (self.init disk).events).length = 1 ∧
        (setupEmpties (self.init disk).events).length = 0) ∨
      ((loads (self.init disk).events).length = 0 ∧
        (setupEmpties (self.init disk).events).length = 1)) ∧
    (creates (self.init disk).events).length = 1 ∧
    (commits (self.init disk).events).length ≤ 1 := by
  by_cases hdir : self._attrDir.empty = false
  · by_cases hflushed : self._attrDir.getFlushedSerialNum = 0
    · simp [AttributeInitializer.init, AttributeInitializer.tryLoadAttribute, hdir,
        hflushed, loads, setupEmpties, creates, commits]
    · cases hheader : extractHeader disk
          (self._attrDir.getAttributeFileName self._attrDir.getFlushedSerialNum) with
      | none =>
        simp [AttributeInitializer.init, AttributeInitializer.tryLoadAttribute, hdir,
          hflushed, hheader] at hret
      | some header =>
        by_cases hn : self._currentSerialNum < header.getCreateSerialNum <;>
        by_cases ht : headerTypeOK header
            (self._factory.create (self._attrDir.getAttributeFileName
              self._attrDir.getFlushedSerialNum) self._cfg).getConfig = true <;>
        by_cases hcan : (self._factory.create (self._attrDir.getAttributeFileName
            self._attrDir.getFlushedSerialNum) self._cfg).hasLoadData = true <;>
        by_cases hload : (self._factory.create (self._attrDir.getAttributeFileName
            self._attrDir.getFlushedSerialNum) self._cfg).load = true <;>
        simp [AttributeInitializer.init, AttributeInitializer.tryLoadAttribute,
          AttributeInitializer.setupEmptyAttribute, AttributeInitializer.loadAttribute,
          hdir, hflushed, hheader, hn, ht, hcan, hload] at hret <;>
        simp [AttributeInitializer.init, AttributeInitializer.tryLoadAttribute,
          AttributeInitializer.setupEmptyAttribute, AttributeInitializer.loadAttribute,
          hdir, hflushed, hheader, hn, ht, hcan, hload, loads, setupEmpties, creates,
          commits]
  · simp [AttributeInitializer.init, AttributeInitializer.createAndSetupEmptyAttribute,
      hdir, loads, setupEmpties, creates, commits]

/-- Scenario E: the run that returns the null pointer invoked `load()` once and
`factory.setupEmpty` never. -/
theorem init_one_recovery_action_scenarioE :
    (((loads (failingInitializer.init (diskOf (headerOf BasicType.INT32 40))).events).length
          = 1 ∧
        (setupEmpties (failingInitializer.init
          (diskOf (headerOf BasicType.INT32 40))).events).length = 0) ∨
      ((loads (failingInitializer.init (diskOf (headerOf BasicType.INT32 40))).events).length
          = 0 ∧
        (setupEmpties (failingInitializer.init
          (diskOf (headerOf BasicType.INT32 40))).events).length = 1)) ∧
    (creates (failingInitializer.init (diskOf (headerOf BasicType.INT32 40))).events).length
      = 1 ∧
    (commits (failingInitializer.init (diskOf (headerOf BasicType.INT32 40))).events).length
      ≤ 1 :=
  init_one_recovery_action failingInitializer (diskOf (headerOf BasicType.INT32 40)) none
    (by decide)

/-! ## Header decode -/

/-- C12: in every run of `init` the on-disk header is decoded at most once:
exactly once, from the file of the flushed generation, when the directory is
non-empty and the flushed serial is not 0, and not at all when the directory
is empty or the flushed serial is 0. -/
theorem init_decodes_header_at_most_once (self : AttributeInitializer) (disk : Disk) :
    (headerDecodes (self.init disk).events).length ≤ 1 ∧
    (self._attrDir.empty = false → self._attrDir.getFlushedSerialNum ≠ 0 →
      headerDecodes (self.init disk).events = [self.flushedFileName]) ∧
    (self._attrDir.empty = true ∨ self._attrDir.getFlushedSerialNum = 0 →
      headerDecodes (self.init disk).events = []) := by
  have hone : self._attrDir.empty = false → self._attrDir.getFlushedSerialNum ≠ 0 →
      headerDecodes (self.init disk).events = [self.flushedFileName] := by
    intro hdir hflushed
    unfold AttributeInitializer.flushedFileName
    cases hheader : extractHeader disk
        (self._attrDir.getAttributeFileName self._attrDir.getFlushedSerialNum) with
    | none =>
      simp [AttributeInitializer.init, AttributeInitializer.tryLoadAttribute, hdir,
        hflushed, hheader, headerDecodes]
    | some header =>
      by_cases hn : self._currentSerialNum < header.getCreateSerialNum <;>
      by_cases ht : headerTypeOK header
          (self._factory.create (self._attrDir.getAttributeFileName
            self._attrDir.getFlushedSerialNum) self._cfg).getConfig = true <;>
      by_cases hcan : (self._factory.create (self._attrDir.getAttributeFileName
          self._attrDir.getFlushedSerialNum) self._cfg).hasLoadData = true <;>
      by_cases hload : (self._factory.create (self._attrDir.getAttributeFileName
          self._attrDir.getFlushedSerialNum) self._cfg).load = true <;>
      simp [AttributeInitializer.init, AttributeInitializer.tryLoadAttribute,
        AttributeInitializer.setupEmptyAttribute, AttributeInitializer.loadAttribute,
        hdir, hflushed, hheader, hn, ht, hcan, hload, headerDecodes]
  have hzero : self._attrDir.empty = true ∨ self._attrDir.getFlushedSerialNum = 0 →
      headerDecodes (self.init disk).events = [] := by
    intro h
    by_cases hdir : self._attrDir.empty = false
    · have hflushed : self._attrDir.getFlushedSerialNum = 0 := by
        rcases h with h | h
        · simp [hdir] at h
        · exact h
      simp [AttributeInitializer.init, AttributeInitializer.tryLoadAttribute, hdir,
        hflushed, headerDecodes]
    · simp [AttributeInitializer.init, AttributeInitializer.createAndSetupEmptyAttribute,
        hdir, headerDecodes]
  refine ⟨?_, hone, hzero⟩
  by_cases hdir : self._attrDir.empty = false
  · by_cases hflushed : self._attrDir.getFlushedSerialNum = 0
    · simp [hzero (Or.inr hflushed)]
    · simp [hone hdir hflushed]
  · have hdir1 : self._attrDir.empty = true := by simpa using hdir
    simp [hzero (Or.inl hdir1)]

/-- C13, as stated, fails: with a non-empty directory, flushed serial 50 and a
data file that cannot be decoded, `init` does not end as it does on a load
failure.  A load failure returns the null pointer; the decode failure leaves
`init` as an exception and nothing is returned. -/
theorem init_decode_failure_is_not_load_failure :
    (failingInitializer._attrDir.empty = false ∧
      failingInitializer._attrDir.getFlushedSerialNum ≠ 0 ∧
      extractHeader brokenDisk failingInitializer.flushedFileName = none) ∧
    (failingInitializer.init (diskOf (headerOf BasicType.INT32 40))).completion =
      Completion.returned none ∧
    (failingInitializer.init brokenDisk).completion = Completion.thrown ∧
    (failingInitializer.init brokenDisk).completion ≠
      (failingInitializer.init (diskOf (headerOf BasicType.INT32 40))).completion := by
  decide

/-- C13 (amended): when decoding the on-disk header fails, the exception
leaves `init`: nothing is returned to the caller, neither an instance nor the
null pointer of a load failure.  The run consists of `factory.create` and the
failed decode only: no header is made up, and none of `factory.setupEmpty`,
`load()` and commit is invoked. -/
theorem init_decode_failure_throws (self : AttributeInitializer) (disk : Disk)
    (hdir : self._attrDir.empty = false)
    (hflushed : self._attrDir.getFlushedSerialNum ≠ 0)
    (hfail : extractHeader disk self.flushedFileName = none) :
    (self.init disk).completion = Completion.thrown ∧
    (∀ result : Option AttributeVector,
      (self.init disk).completion ≠ Completion.returned result) ∧
    (self.init disk).events =
      [Event.create self.flushedFileName self._cfg,
       Event.extractHeader self.flushedFileName] ∧
    setupEmpties (self.init disk).events = [] ∧
    loads (self.init disk).events = [] ∧
    commits (self.init disk).events = [] := by
  unfold AttributeInitializer.flushedFileName at *
  refine ⟨?_, ?_, ?_, ?_, ?_, ?_⟩ <;>
  simp [AttributeInitializer.init, AttributeInitializer.tryLoadAttribute, hdir, hflushed,
    hfail, setupEmpties, loads, commits]

/-- A data file that cannot be decoded: flushed serial 50, current serial 100. -/
theorem init_decode_failure_throws_at_50 :
    (failingInitializer.init brokenDisk).completion = Completion.thrown ∧
    (∀ result : Option AttributeVector,
      (failingInitializer.init brokenDisk).completion ≠ Completion.returned result) ∧
    (failingInitializer.init brokenDisk).events =
      [Event.create failingInitializer.flushedFileName failingInitializer._cfg,
       Event.extractHeader failingInitializer.flushedFileName] ∧
    setupEmpties (failingInitializer.init brokenDisk).events = [] ∧
    loads (failingInitializer.init brokenDisk).events = [] ∧
    commits (failingInitializer.init brokenDisk).events = [] :=
  init_decode_failure_throws failingInitializer brokenDisk rfl (by decide) rfl

/-! ## Determinism -/

/-- C14: two runs of `init` that agree on the directory's `empty()` answer and
flushed serial, on the decoded header, on the target configuration, on the
current serial and on the instance's answers to `hasLoadData()` and `load()`
agree on how the run ends and whether an instance is returned, on the
configuration of the returned instance, and on the sequence of
`setupEmpty` / `load` / `commit` calls with their serial-number arguments. -/
theorem init_deterministic (self other : AttributeInitializer) (disk otherDisk : Disk)
    (hempty : self._attrDir.empty = other._attrDir.empty)
    (hflushed : self._attrDir.getFlushedSerialNum = other._attrDir.getFlushedSerialNum)
    (hheader : extractHeader disk self.flushedFileName =
      extractHeader otherDisk other.flushedFileName)
    (hcfg : self._cfg = other._cfg)
    (hserial : self._currentSerialNum = other._currentSerialNum)
    (hcan : self.flushedAttr.hasLoadData = other.flushedAttr.hasLoadData)
    (hload : self.flushedAttr.load = other.flushedAttr.load) :
    handedConfig (self.init disk).completion =
      handedConfig (other.init otherDisk).completion ∧
    actions (self.init disk).events = actions (other.init otherDisk).events := by
  have hc1 : (self._factory.create (self._attrDir.getAttributeFileName
      self._attrDir.getFlushedSerialNum) self._cfg).getConfig = other._cfg := by
    rw [self._factory.create_getConfig, hcfg]
  have hc2 : (other._factory.create (other._attrDir.getAttributeFileName
      other._attrDir.getFlushedSerialNum) other._cfg).getConfig = other._cfg :=
    other._factory.create_getConfig _ _
  have hc3 : (self._factory.create (self._attrDir.getAttributeFileName 0)
      self._cfg).getConfig = other._cfg := by
    rw [self._factory.create_getConfig, hcfg]
  have hc4 : (other._factory.create (other._attrDir.getAttributeFileName 0)
      other._cfg).getConfig = other._cfg :=
    other._factory.create_getConfig _ _
  unfold AttributeInitializer.flushedAttr AttributeInitializer.flushedFileName at *
  by_cases hdir : self._attrDir.empty = false
  · have hdir2 : other._attrDir.empty = false := by rw [← hempty]; exact hdir
    by_cases hzero : self._attrDir.getFlushedSerialNum = 0
    · have hzero2 : other._attrDir.getFlushedSerialNum = 0 := by rw [← hflushed]; exact hzero
      simp [AttributeInitializer.init, AttributeInitializer.tryLoadAttribute, hdir, hdir2,
        hzero, hzero2, hc3, hc4, handedConfig, actions]
      exact hserial
    · have hzero2 : other._attrDir.getFlushedSerialNum ≠ 0 := by rw [← hflushed]; exact hzero
      cases hh : extractHeader disk
          (self._attrDir.getAttributeFileName self._attrDir.getFlushedSerialNum) with
      | none =>
        have hh2 := hheader.symm.trans hh
        simp [AttributeInitializer.init, AttributeInitializer.tryLoadAttribute, hdir, hdir2,
          hzero, hzero2, hh, hh2, handedConfig, actions]
      | some header =>
        have hh2 := hheader.symm.trans hh
        by_cases hn : self._currentSerialNum < header.getCreateSerialNum
        · have hn2 : other._currentSerialNum < header.getCreateSerialNum := by
            rw [← hserial]; exact hn
          simp [AttributeInitializer.init, AttributeInitializer.tryLoadAttribute,
            AttributeInitializer.setupEmptyAttribute, hdir, hdir2, hzero, hzero2, hh, hh2,
            hn, hn2, hc1, hc2, handedConfig]
          by_cases ht : headerTypeOK header other._cfg = true <;>
          simp [ht, actions, hserial, hflushed]
        · have hn2 : ¬ (other._currentSerialNum < header.getCreateSerialNum) := by
            rw [← hserial]; exact hn
          by_cases ht : headerTypeOK header other._cfg = true
          · by_cases hcan1 : (self._factory.create (self._attrDir.getAttributeFileName
                self._attrDir.getFlushedSerialNum) self._cfg).hasLoadData = true
            · have hcan2 := hcan.symm.trans hcan1
              by_cases hload1 : (self._factory.create (self._attrDir.getAttributeFileName
                  self._attrDir.getFlushedSerialNum) self._cfg).load = true
              · have hload2 := hload.symm.trans hload1
                simp [AttributeInitializer.init, AttributeInitializer.tryLoadAttribute,
                  AttributeInitializer.loadAttribute, hdir, hdir2, hzero, hzero2, hh, hh2,
                  hn, hn2, ht, hc1, hc2, hcan1, hcan2, hload1, hload2, handedConfig, actions]
                exact hflushed
              · have hload1f : (self._factory.create (self._attrDir.getAttributeFileName
                    self._attrDir.getFlushedSerialNum) self._cfg).load = false := by
                  simpa using hload1
                have hload2 := hload.symm.trans hload1f
                simp [AttributeInitializer.init, AttributeInitializer.tryLoadAttribute,
                  AttributeInitializer.loadAttribute, hdir, hdir2, hzero, hzero2, hh, hh2,
                  hn, hn2, ht, hc1, hc2, hcan1, hcan2, hload1f, hload2, handedConfig,
                  actions]
            · have hcan1f : (self._factory.create (self._attrDir.getAttributeFileName
                  self._attrDir.getFlushedSerialNum) self._cfg).hasLoadData = false := by
                simpa using hcan1
              have hcan2 := hcan.symm.trans hcan1f
              simp [AttributeInitializer.init, AttributeInitializer.tryLoadAttribute,
                AttributeInitializer.loadAttribute, hdir, hdir2, hzero, hzero2, hh, hh2,
                hn, hn2, ht, hc1, hc2, hcan1f, hcan2, handedConfig, actions]
          · simp [AttributeInitializer.init, AttributeInitializer.tryLoadAttribute,
              AttributeInitializer.setupEmptyAttribute, hdir, hdir2, hzero, hzero2, hh, hh2,
              hn, hn2, ht, hc1, hc2, handedConfig, actions]
            exact ⟨hserial, hflushed⟩
  · have hdir1 : self._attrDir.empty = true := by simpa using hdir
    have hdir2 : other._attrDir.empty = true := by rw [← hempty]; exact hdir1
    simp [AttributeInitializer.init, AttributeInitializer.createAndSetupEmptyAttribute,
      hdir1, hdir2, hc3, hc4, handedConfig, actions]
    exact hserial

/-- Scenario B run in two sub-databases with different file and attribute
names: both runs load and commit at (50, 50) with the int32 configuration. -/
theorem init_deterministic_scenarioB :
    handedConfig (loadingInitializer.init (diskOf (headerOf BasicType.INT32 40))).completion =
      handedConfig
        (renamedLoadingInitializer.init (diskOf (headerOf BasicType.INT32 40))).completion ∧
    actions (loadingInitializer.init (diskOf (headerOf BasicType.INT32 40))).events =
      actions (renamedLoadingInitializer.init (diskOf (headerOf BasicType.INT32 40))).events :=
  init_deterministic loadingInitializer renamedLoadingInitializer
    (diskOf (headerOf BasicType.INT32 40)) (diskOf (headerOf BasicType.INT32 40))
    rfl rfl rfl rfl rfl rfl rfl

/-! ## Diagnostics -/

/-- C15: in `setupEmptyAttribute` the two diagnostics are decided
independently: "too new" is logged (once) if and only if
`header.getCreateSerialNum > S`, "wrong type" is logged (once) if and only if
`headerTypeOK(header, attr->getConfig())` is false, so both are logged when
both conditions hold; and the diagnostics come first: the run of
`setupEmptyAttribute` ends with the "returning empty" log line,
`factory.setupEmpty(attr, S)` and `commit(serialNum, serialNum)`, and
everything before these is a diagnostic. -/
theorem setupEmptyAttribute_diagnostics (self : AttributeInitializer)
    (attr : AttributeVector) (serialNum : Nat) (header : AttributeHeader) :
    tooNewLogs (self.setupEmptyAttribute attr serialNum header) =
      (if header.getCreateSerialNum > self._currentSerialNum then
        [(attr, header, self._currentSerialNum)] else []) ∧
    wrongTypeLogs (self.setupEmptyAttribute attr serialNum header) =
      (if headerTypeOK header attr.getConfig = false then [(attr, header)] else []) ∧
    (Event.logAttributeTooNew attr header self._currentSerialNum ∈
        self.setupEmptyAttribute attr serialNum header ↔
      header.getCreateSerialNum > self._currentSerialNum) ∧
    (Event.logAttributeWrongType attr header ∈
        self.setupEmptyAttribute attr serialNum header ↔
      headerTypeOK header attr.getConfig = false) ∧
    (header.getCreateSerialNum > self._currentSerialNum →
      headerTypeOK header attr.getConfig = false →
      Event.logAttributeTooNew attr header self._currentSerialNum ∈
        self.setupEmptyAttribute attr serialNum header ∧
      Event.logAttributeWrongType attr header ∈
        self.setupEmptyAttribute attr serialNum header) ∧
    (∃ diagnostics : List Event,
      self.setupEmptyAttribute attr serialNum header = diagnostics ++
        [Event.logReturningEmpty attr,
         Event.setupEmpty attr self._currentSerialNum,
         Event.commit attr serialNum serialNum] ∧
      (∀ e ∈ diagnostics,
        e = Event.logAttributeTooNew attr header self._currentSerialNum ∨
        e = Event.logAttributeWrongType attr header) ∧
      setupEmpties diagnostics = [] ∧ commits diagnostics = []) := by
  refine ⟨?_, ?_, ?_, ?_, ?_, ?_⟩
  · by_cases hn : self._currentSerialNum < header.getCreateSerialNum <;>
    by_cases ht : headerTypeOK header attr.getConfig = true <;>
    simp [AttributeInitializer.setupEmptyAttribute, hn, ht, tooNewLogs]
  · by_cases hn : self._currentSerialNum < header.getCreateSerialNum <;>
    by_cases ht : headerTypeOK header attr.getConfig = true <;>
    simp [AttributeInitializer.setupEmptyAttribute, hn, ht, wrongTypeLogs]
  · by_cases hn : self._currentSerialNum < header.getCreateSerialNum <;>
    by_cases ht : headerTypeOK header attr.getConfig = true <;>
    simp [AttributeInitializer.setupEmptyAttribute, hn, ht]
  · by_cases hn : self._currentSerialNum < header.getCreateSerialNum <;>
    by_cases ht : headerTypeOK header attr.getConfig = true <;>
    simp [AttributeInitializer.setupEmptyAttribute, hn, ht]
  · intro hn ht
    have hn1 : self._currentSerialNum < header.getCreateSerialNum := hn
    simp [AttributeInitializer.setupEmptyAttribute, hn1, ht]
  · refine ⟨(if header.getCreateSerialNum > self._currentSerialNum then
        [Event.logAttributeTooNew attr header self._currentSerialNum] else []) ++
      (if headerTypeOK header attr.getConfig = false then
        [Event.logAttributeWrongType attr header] else []), ?_, ?_, ?_, ?_⟩
    · simp [AttributeInitializer.setupEmptyAttribute]
    · intro e he
      by_cases hn : self._currentSerialNum < header.getCreateSerialNum <;>
      by_cases ht : headerTypeOK header attr.getConfig = true <;>
      simp [hn, ht] at he <;>
      simp [he]
    · by_cases hn : self._currentSerialNum < header.getCreateSerialNum <;>
      by_cases ht : headerTypeOK header attr.getConfig = true <;>
      simp [hn, ht, setupEmpties]
    · by_cases hn : self._currentSerialNum < header.getCreateSerialNum <;>
      by_cases ht : headerTypeOK header attr.getConfig = true <;>
      simp [hn, ht, commits]

/-! ## The guard of the load -/

/-- C16: `load()` is never invoked on an instance that reports it cannot load.
If `attr.hasLoadData()` is false, `loadAttribute` stops at its assertion
having emitted nothing, and a run of `init` that reaches it ends there: after
`factory.create` and the header decode, with no load-start event, no `load()`,
no commit and no returned instance.  Every `load()` of a run of `init` is
invoked on the created instance, which reports `hasLoadData()`, in a
non-empty directory with non-zero flushed serial, after a header was decoded
that passed the freshness and the type check. -/
theorem init_load_only_when_loadable (self : AttributeInitializer) (disk : Disk) :
    (∀ (attr : AttributeVector) (serialNum : Nat), attr.hasLoadData = false →
      self.loadAttribute attr serialNum =
        { events := [], completion := Completion.assertFailed }) ∧
    (∀ header : AttributeHeader,
      self._attrDir.empty = false → self._attrDir.getFlushedSerialNum ≠ 0 →
      extractHeader disk self.flushedFileName = some header →
      header.getCreateSerialNum ≤ self._currentSerialNum →
      headerTypeOK header self._cfg = true →
      self.flushedAttr.hasLoadData = false →
      (self.init disk).completion = Completion.assertFailed ∧
      (self.init disk).events =
        [Event.create self.flushedFileName self._cfg,
         Event.extractHeader self.flushedFileName] ∧
      loads (self.init disk).events = [] ∧
      commits (self.init disk).events = []) ∧
    (∀ attr ∈ loads (self.init disk).events,
      attr = self.flushedAttr ∧ attr.hasLoadData = true ∧
      self._attrDir.empty = false ∧ self._attrDir.getFlushedSerialNum ≠ 0 ∧
      ∃ header : AttributeHeader,
        extractHeader disk self.flushedFileName = some header ∧
        header.getCreateSerialNum ≤ self._currentSerialNum ∧
        headerTypeOK header self._cfg = true) := by
  have hcfg : (self._factory.create (self._attrDir.getAttributeFileName
      self._attrDir.getFlushedSerialNum) self._cfg).getConfig = self._cfg :=
    self._factory.create_getConfig _ _
  unfold AttributeInitializer.flushedAttr AttributeInitializer.flushedFileName
  refine ⟨?_, ?_, ?_⟩
  · intro attr serialNum hcan
    simp [AttributeInitializer.loadAttribute, hcan]
  · intro header hdir hflushed hheader hfresh htype hcan
    have hnot : ¬ (self._currentSerialNum < header.getCreateSerialNum) :=
      Nat.not_lt.mpr hfresh
    simp [AttributeInitializer.init, AttributeInitializer.tryLoadAttribute,
      AttributeInitializer.loadAttribute, hdir, hflushed, hheader, hnot, hcfg, htype,
      hcan, loads, commits]
  · intro attr hattr
    by_cases hdir : self._attrDir.empty = false
    · by_cases hflushed : self._attrDir.getFlushedSerialNum = 0
      · simp [AttributeInitializer.init, AttributeInitializer.tryLoadAttribute, hdir,
          hflushed, loads] at hattr
      · cases hheader : extractHeader disk
            (self._attrDir.getAttributeFileName self._attrDir.getFlushedSerialNum) with
        | none =>
          simp [AttributeInitializer.init, AttributeInitializer.tryLoadAttribute, hdir,
            hflushed, hheader, loads] at hattr
        | some header =>
          by_cases hn : self._currentSerialNum < header.getCreateSerialNum <;>
          by_cases ht : headerTypeOK header self._cfg = true <;>
          by_cases hcan : (self._factory.create (self._attrDir.getAttributeFileName
              self._attrDir.getFlushedSerialNum) self._cfg).hasLoadData = true <;>
          by_cases hload : (self._factory.create (self._attrDir.getAttributeFileName
              self._attrDir.getFlushedSerialNum) self._cfg).load = true <;>
          simp [AttributeInitializer.init, AttributeInitializer.tryLoadAttribute,
            AttributeInitializer.setupEmptyAttribute, AttributeInitializer.loadAttribute,
            hdir, hflushed, hheader, hcfg, hn, ht, hcan, hload, loads] at hattr <;>
          subst hattr <;>
          simp [hdir, hflushed, hcan, ht, Nat.not_lt.mp hn]
    · simp [AttributeInitializer.init, AttributeInitializer.createAndSetupEmptyAttribute,
        hdir, loads] at hattr

/-! ## Diagnostics and downgrades -/

/-- C17: in any run of `init`, at least one of the "too new" / "wrong type"
diagnostics is logged if and only if the run takes the empty-stale path, that
is, a header was decoded in a non-empty directory with non-zero flushed serial
and it is too new or of the wrong type; this is exactly when
`setupEmptyAttribute` is entered (its "returning empty" line is logged).  On
that path the two diagnostics are those of the two dispatch conditions.
Neither diagnostic is logged on the load path, on the zero-flushed-serial path
or on the empty-directory path. -/
theorem init_diagnostic_iff_downgrade (self : AttributeInitializer) (disk : Disk) :
    ((tooNewLogs (self.init disk).events ≠ [] ∨ wrongTypeLogs (self.init disk).events ≠ []) ↔
      (self._attrDir.empty = false ∧ self._attrDir.getFlushedSerialNum ≠ 0 ∧
        ∃ header : AttributeHeader,
          extractHeader disk self.flushedFileName = some header ∧
          (header.getCreateSerialNum > self._currentSerialNum ∨
            headerTypeOK header self._cfg = false))) ∧
    ((tooNewLogs (self.init disk).events ≠ [] ∨ wrongTypeLogs (self.init disk).events ≠ []) ↔
      Event.logReturningEmpty self.flushedAttr ∈ (self.init disk).events) ∧
    (∀ header : AttributeHeader,
      self._attrDir.empty = false → self._attrDir.getFlushedSerialNum ≠ 0 →
      extractHeader disk self.flushedFileName = some header →
      (header.getCreateSerialNum > self._currentSerialNum ∨
        headerTypeOK header self._cfg = false) →
      tooNewLogs (self.init disk).events =
        (if header.getCreateSerialNum > self._currentSerialNum then
          [(self.flushedAttr, header, self._currentSerialNum)] else []) ∧
      wrongTypeLogs (self.init disk).events =
        (if headerTypeOK header self._cfg = false then
          [(self.flushedAttr, header)] else [])) ∧
    (∀ header : AttributeHeader,
      self._attrDir.empty = false → self._attrDir.getFlushedSerialNum ≠ 0 →
      extractHeader disk self.flushedFileName = some header →
      header.getCreateSerialNum ≤ self._currentSerialNum →
      headerTypeOK header self._cfg = true →
      tooNewLogs (self.init disk).events = [] ∧ wrongTypeLogs (self.init disk).events = []) ∧
    (self._attrDir.empty = false → self._attrDir.getFlushedSerialNum = 0 →
      tooNewLogs (self.init disk).events = [] ∧ wrongTypeLogs (self.init disk).events = []) ∧
    (self._attrDir.empty = true →
      tooNewLogs (self.init disk).events = [] ∧ wrongTypeLogs (self.init disk).events = []) := by
  have hcfg : (self._factory.create (self._attrDir.getAttributeFileName
      self._attrDir.getFlushedSerialNum) self._cfg).getConfig = self._cfg :=
    self._factory.create_getConfig _ _
  unfold AttributeInitializer.flushedAttr AttributeInitializer.flushedFileName
  refine ⟨?_, ?_, ?_, ?_, ?_, ?_⟩
  · by_cases hdir : self._attrDir.empty = false
    · by_cases hflushed : self._attrDir.getFlushedSerialNum = 0
      · simp [AttributeInitializer.init, AttributeInitializer.tryLoadAttribute, hdir,
          hflushed, tooNewLogs, wrongTypeLogs]
      · cases hheader : extractHeader disk
            (self._attrDir.getAttributeFileName self._attrDir.getFlushedSerialNum) with
        | none =>
          simp [AttributeInitializer.init, AttributeInitializer.tryLoadAttribute, hdir,
            hflushed, hheader, tooNewLogs, wrongTypeLogs]
        | some header =>
          by_cases hn : self._currentSerialNum < header.getCreateSerialNum <;>
          by_cases ht : headerTypeOK header self._cfg = true <;>
          by_cases hcan : (self._factory.create (self._attrDir.getAttributeFileName
              self._attrDir.getFlushedSerialNum) self._cfg).hasLoadData = true <;>
          by_cases hload : (self._factory.create (self._attrDir.getAttributeFileName
              self._attrDir.getFlushedSerialNum) self._cfg).load = true <;>
          simp [AttributeInitializer.init, AttributeInitializer.tryLoadAttribute,
            AttributeInitializer.setupEmptyAttribute, AttributeInitializer.loadAttribute,
            hdir, hflushed, hheader, hcfg, hn, ht, hcan, hload, tooNewLogs, wrongTypeLogs]
    · simp [AttributeInitializer.init, AttributeInitializer.createAndSetupEmptyAttribute,
        hdir, tooNewLogs, wrongTypeLogs]
  · by_cases hdir : self._attrDir.empty = false
    · by_cases hflushed : self._attrDir.getFlushedSerialNum = 0
      · simp [AttributeInitializer.init, AttributeInitializer.tryLoadAttribute, hdir,
          hflushed, tooNewLogs, wrongTypeLogs]
      · cases hheader : extractHeader disk
            (self._attrDir.getAttributeFileName self._attrDir.getFlushedSerialNum) with
        | none =>
          simp [AttributeInitializer.init, AttributeInitializer.tryLoadAttribute, hdir,
            hflushed, hheader, tooNewLogs, wrongTypeLogs]
        | some header =>
          by_cases hn : self._currentSerialNum < header.getCreateSerialNum <;>
          by_cases ht : headerTypeOK header self._cfg = true <;>
          by_cases hcan : (self._factory.create (self._attrDir.getAttributeFileName
              self._attrDir.getFlushedSerialNum) self._cfg).hasLoadData = true <;>
          by_cases hload : (self._factory.create (self._attrDir.getAttributeFileName
              self._attrDir.getFlushedSerialNum) self._cfg).load = true <;>
          simp [AttributeInitializer.init, AttributeInitializer.tryLoadAttribute,
            AttributeInitializer.setupEmptyAttribute, AttributeInitializer.loadAttribute,
            hdir, hflushed, hheader, hcfg, hn, ht, hcan, hload, tooNewLogs, wrongTypeLogs]
    · simp [AttributeInitializer.init, AttributeInitializer.createAndSetupEmptyAttribute,
        hdir, tooNewLogs, wrongTypeLogs]
  · intro header hdir hflushed hheader hstale
    by_cases hn : self._currentSerialNum < header.getCreateSerialNum <;>
    by_cases ht : headerTypeOK header self._cfg = true <;>
    simp [hn, ht] at hstale <;>
    simp [AttributeInitializer.init, AttributeInitializer.tryLoadAttribute,
      AttributeInitializer.setupEmptyAttribute, hdir, hflushed, hheader, hcfg, hn, ht,
      tooNewLogs, wrongTypeLogs]
  · intro header hdir hflushed hheader hfresh htype
    have hnot : ¬ (self._currentSerialNum < header.getCreateSerialNum) :=
      Nat.not_lt.mpr hfresh
    by_cases hcan : (self._factory.create (self._attrDir.getAttributeFileName
        self._attrDir.getFlushedSerialNum) self._cfg).hasLoadData = true <;>
    by_cases hload : (self._factory.create (self._attrDir.getAttributeFileName
        self._attrDir.getFlushedSerialNum) self._cfg).load = true <;>
    simp [AttributeInitializer.init, AttributeInitializer.tryLoadAttribute,
      AttributeInitializer.loadAttribute, hdir, hflushed, hheader, hcfg, hnot, htype,
      hcan, hload, tooNewLogs, wrongTypeLogs]
  · intro hdir hflushed
    simp [AttributeInitializer.init, AttributeInitializer.tryLoadAttribute, hdir,
      hflushed, tooNewLogs, wrongTypeLogs]
  · intro hdir
    simp [AttributeInitializer.init, AttributeInitializer.createAndSetupEmptyAttribute,
      hdir, tooNewLogs, wrongTypeLogs]

end proton

namespace document

/-! ## Comparing iterators -/

/-- C18: for all iterators `a` and `b`, `a == b` is true when both are at the
end (both field pointers null), false when exactly one is at the end, and
otherwise the result of comparing the two referenced fields with
`Field::operator==`; `a != b` is the negation of `a == b`; hence `==` on
iterators is symmetric whenever field equality is, and reflexive whenever
field equality is. -/
theorem Iterator.operator_eq_cases {Field : Type} (fieldEq : Field → Field → Bool) :
    (∀ a b : Iterator Field, a._field = none → b._field = none →
      Iterator.operator_eq fieldEq a b = true) ∧
    (∀ a b : Iterator Field,
      (a._field = none ∧ b._field ≠ none) ∨ (a._field ≠ none ∧ b._field = none) →
      Iterator.operator_eq fieldEq a b = false) ∧
    (∀ (a b : Iterator Field) (field otherField : Field),
      a._field = some field → b._field = some otherField →
      Iterator.operator_eq fieldEq a b = fieldEq field otherField) ∧
    (∀ a b : Iterator Field,
      Iterator.operator_ne fieldEq a b = !(Iterator.operator_eq fieldEq a b)) ∧
    ((∀ x y : Field, fieldEq x y = fieldEq y x) →
      ∀ a b : Iterator Field,
        Iterator.operator_eq fieldEq a b = Iterator.operator_eq fieldEq b a) ∧
    ((∀ x : Field, fieldEq x x = true) →
      ∀ a : Iterator Field, Iterator.operator_eq fieldEq a a = true) := by
  refine ⟨?_, ?_, ?_, ?_, ?_, ?_⟩
  · intro a b ha hb
    simp [Iterator.operator_eq, ha, hb]
  · intro a b h
    rcases h with ⟨ha, hb⟩ | ⟨ha, hb⟩
    · cases hbf : b._field with
      | none => exact absurd hbf hb
      | some y => simp [Iterator.operator_eq, ha, hbf]
    · cases haf : a._field with
      | none => exact absurd haf ha
      | some x => simp [Iterator.operator_eq, haf, hb]
  · intro a b field otherField ha hb
    simp [Iterator.operator_eq, ha, hb]
  · intro a b
    rfl
  · intro hsymm a b
    cases ha : a._field <;> cases hb : b._field <;>
    simp [Iterator.operator_eq, ha, hb, hsymm _ _]
  · intro hrefl a
    cases ha : a._field <;> simp [Iterator.operator_eq, ha, hrefl]

end document
